import Mathlib

set_option maxRecDepth 4000

/-!
Verification of the signal computation and fusion engine of the
freqtrade-news-ml repository, shallowly embedded in Lean 4.

Numeric model: pandas float64 series are modelled over ℚ (exact rational
arithmetic, idealizing IEEE floating point); a pandas cell that may be NaN
is modelled as an Option ℚ (`none` = NaN).  Pandas semantics followed:
  - ewm(span/alpha, adjust=False, min_periods=m).mean(): recursive
    exponential smoothing started at the first non-NaN observation, output
    masked to NaN until m non-NaN observations have been seen (the series
    this code feeds to ewm only ever have a contiguous leading NaN block);
  - rolling(w).mean(): NaN until w observations, NaN whenever the window
    contains a NaN (min_periods defaults to the window size);
  - comparisons involving NaN are False;
  - ffill/bfill propagate the nearest non-NaN value forward/backward.
Division by zero cannot occur in the guarded expressions of this code path
(the RSI denominator is avg_loss + 1e-10 > 0); where a dataframe division
could in principle meet a zero divisor (vol_frac on an all-zero volume
window, atr/close on a zero close) the claims are evaluated on candles with
positive prices and volumes, so the ℚ junk-value convention x/0 = 0 is
never exercised.
-/

/-- A pandas cell: `none` models NaN. -/
abbrev Cell : Type := Option ℚ

/-- Recursive EMA step (pandas ewm, adjust=False) continuing from state s. -/
def emaGo (a : ℚ) : ℚ → List ℚ → List ℚ
  | _, [] => []
  | s, x :: xs =>
    let t := a * x + (1 - a) * s
    t :: emaGo a t xs

/-- pandas Series.ewm(span, adjust=False).mean() on an all-numeric series:
e[0] = x[0], e[i] = a*x[i] + (1-a)*e[i-1]. -/
def emaList (a : ℚ) : List ℚ → List ℚ
  | [] => []
  | x :: xs => x :: emaGo a x xs

/-- pandas ewm(alpha=a, min_periods=minp, adjust=False).mean() on a series
with NaNs: the recursion starts at the first non-NaN value, carries its
state across NaN positions, and the output is masked to NaN until minp
non-NaN observations have been seen. -/
def ewmGo (a : ℚ) (minp : Nat) : Option ℚ → Nat → List Cell → List Cell
  | _, _, [] => []
  | none, cnt, none :: r => none :: ewmGo a minp none cnt r
  | none, cnt, some x :: r =>
    (if minp ≤ cnt + 1 then some x else none) :: ewmGo a minp (some x) (cnt + 1) r
  | some s, cnt, none :: r =>
    (if minp ≤ cnt then some s else none) :: ewmGo a minp (some s) cnt r
  | some s, cnt, some x :: r =>
    let t := a * x + (1 - a) * s
    (if minp ≤ cnt + 1 then some t else none) :: ewmGo a minp (some t) (cnt + 1) r

/-- Entry point of the masked Wilder-style smoothing. -/
def ewmMean (a : ℚ) (minp : Nat) (xs : List Cell) : List Cell :=
  ewmGo a minp none 0 xs

/-- pandas Series.diff(): NaN at row 0, x[i] - x[i-1] afterwards. -/
def diffList : List ℚ → List Cell
  | [] => []
  | x :: xs => none :: List.zipWith (fun cur prev => some (cur - prev)) xs (x :: xs)

/-- Lift a binary ℚ operation to NaN-propagating cells. -/
def cmap2 (f : ℚ → ℚ → ℚ) : Cell → Cell → Cell
  | some a, some b => some (f a b)
  | _, _ => none

/-- delta.clip(lower=0): the positive part of a diff cell. -/
def cGain (c : Cell) : Cell := c.map (fun d => max d 0)

/-- -delta.clip(upper=0): the negative part, negated. -/
def cLoss (c : Cell) : Cell := c.map (fun d => max (-d) 0)

/-- NaN-propagating sum of a window of cells. -/
def cellsSum : List Cell → Cell :=
  List.foldr (cmap2 (· + ·)) (some 0)

/-- pandas Series.rolling(w).mean() (min_periods defaults to w): NaN for the
first w-1 rows and for any window containing a NaN, else the window mean. -/
def rollingMean (w : Nat) (xs : List Cell) : List Cell :=
  (List.range xs.length).map fun i =>
    if i + 1 < w then none
    else (cellsSum ((xs.take (i + 1)).drop (i + 1 - w))).map (fun s => s / (w : ℚ))

/-- Forward fill with an explicit last-seen state. -/
def ffillGo : Option ℚ → List Cell → List Cell
  | _, [] => []
  | last, none :: r => last :: ffillGo last r
  | _, some x :: r => some x :: ffillGo (some x) r

/-- pandas ffill on one column. -/
def ffillCol (xs : List Cell) : List Cell := ffillGo none xs

/-- pandas bfill on one column. -/
def bfillCol (xs : List Cell) : List Cell := (ffillGo none xs.reverse).reverse

/-- pandas Series.shift(1) on a cell column. -/
def shiftCell (xs : List Cell) : List Cell := none :: xs.dropLast

/-- True range column: row 0 is high-low (the NaN prev_close terms are
skipped by the row-wise max); later rows take the standard three-way max
against the previous close.  Continuation with explicit previous close. -/
def trGo : ℚ → List ℚ → List ℚ → List ℚ → List ℚ
  | pc, h :: hs, l :: ls, c :: cs =>
    max (h - l) (max |h - pc| |l - pc|) :: trGo c hs ls cs
  | _, _, _, _ => []

/-- tr = max(high-low, |high-prev_close|, |low-prev_close|). -/
def trList : List ℚ → List ℚ → List ℚ → List ℚ
  | h :: hs, l :: ls, c :: cs => (h - l) :: trGo c hs ls cs
  | _, _, _ => []

/-- Cell comparisons: pandas comparisons with NaN evaluate to False. -/
def cGT (a b : Cell) : Bool :=
  match a, b with
  | some x, some y => decide (x > y)
  | _, _ => false

/-- NaN-safe less-than. -/
def cLT (a b : Cell) : Bool :=
  match a, b with
  | some x, some y => decide (x < y)
  | _, _ => false

/-- NaN-safe less-or-equal. -/
def cLE (a b : Cell) : Bool :=
  match a, b with
  | some x, some y => decide (x ≤ y)
  | _, _ => false

/-- NaN-safe greater-or-equal. -/
def cGE (a b : Cell) : Bool :=
  match a, b with
  | some x, some y => decide (x ≥ y)
  | _, _ => false

/-- The dataframe as used by this pipeline.  The five candle columns are
all-numeric (candles are finite floats); indicator columns are absent
(`none`) until the corresponding calculate_* call adds them. -/
structure DF where
  dopen : List ℚ
  dhigh : List ℚ
  dlow : List ℚ
  dclose : List ℚ
  dvolume : List ℚ
  ema_fast : Option (List Cell)
  ema_slow : Option (List Cell)
  macd : Option (List Cell)
  macd_sig : Option (List Cell)
  macd_hist : Option (List Cell)
  ema50 : Option (List Cell)
  ema200 : Option (List Cell)
  rsi : Option (List Cell)
  atr : Option (List Cell)
  adx : Option (List Cell)
  vol_frac : Option (List Cell)
  vol_ok : Option (List Bool)
  enter_long : Option (List ℚ)
  enter_short : Option (List ℚ)
  exit_long : Option (List ℚ)
  exit_short : Option (List ℚ)
deriving DecidableEq

/-- A raw candle dataframe (no indicator columns yet). -/
def mkDF (o h l c v : List ℚ) : DF :=
  ⟨o, h, l, c, v, none, none, none, none, none, none, none, none, none, none,
   none, none, none, none, none, none⟩

/-- Number of rows (all candle columns have this length on well-formed input). -/
def nRows (df : DF) : Nat := df.dclose.length

/-- df.ffill(): forward fill every column.  The candle columns and the
boolean/int columns contain no NaN, so only the cell columns change. -/
def dfFFill (df : DF) : DF :=
  { df with
    ema_fast := df.ema_fast.map ffillCol
    ema_slow := df.ema_slow.map ffillCol
    macd := df.macd.map ffillCol
    macd_sig := df.macd_sig.map ffillCol
    macd_hist := df.macd_hist.map ffillCol
    ema50 := df.ema50.map ffillCol
    ema200 := df.ema200.map ffillCol
    rsi := df.rsi.map ffillCol
    atr := df.atr.map ffillCol
    adx := df.adx.map ffillCol
    vol_frac := df.vol_frac.map ffillCol }

/-- df.bfill(): backward fill every column. -/
def dfBFill (df : DF) : DF :=
  { df with
    ema_fast := df.ema_fast.map bfillCol
    ema_slow := df.ema_slow.map bfillCol
    macd := df.macd.map bfillCol
    macd_sig := df.macd_sig.map bfillCol
    macd_hist := df.macd_hist.map bfillCol
    ema50 := df.ema50.map bfillCol
    ema200 := df.ema200.map bfillCol
    rsi := df.rsi.map bfillCol
    atr := df.atr.map bfillCol
    adx := df.adx.map bfillCol
    vol_frac := df.vol_frac.map bfillCol }

/-- indicators.calculate_ema_macd: trend EMAs of close (alpha = 2/(span+1)),
macd = ema_fast - ema_slow, macd_sig = ema(macd, signal span),
macd_hist = macd - macd_sig. -/
def calculate_ema_macd (efs ess mss : Nat) (df : DF) : DF :=
  let ema_f := emaList (2 / ((efs : ℚ) + 1)) df.dclose
  let ema_s := emaList (2 / ((ess : ℚ) + 1)) df.dclose
  let m := List.zipWith (· - ·) ema_f ema_s
  let msig := emaList (2 / ((mss : ℚ) + 1)) m
  let mhist := List.zipWith (· - ·) m msig
  { df with
    macd := some (m.map some)
    macd_sig := some (msig.map some)
    macd_hist := some (mhist.map some)
    ema_fast := some (ema_f.map some)
    ema_slow := some (ema_s.map some) }

/-- indicators.calculate_trend_emas: ema50 and ema200 of close. -/
def calculate_trend_emas (df : DF) : DF :=
  { df with
    ema50 := some ((emaList (2 / 51) df.dclose).map some)
    ema200 := some ((emaList (2 / 201) df.dclose).map some) }

/-- 1e-10, the divide-by-zero guard added to avg_loss in calculate_rsi. -/
def rsiEps : ℚ := 1 / 10000000000

/-- Wilder-smoothed average gain column of calculate_rsi. -/
def avgGainCol (period : Nat) (close : List ℚ) : List Cell :=
  ewmMean (1 / (period : ℚ)) period ((diffList close).map cGain)

/-- Wilder-smoothed average loss column of calculate_rsi. -/
def avgLossCol (period : Nat) (close : List ℚ) : List Cell :=
  ewmMean (1 / (period : ℚ)) period ((diffList close).map cLoss)

/-- The rsi column: rs = avg_gain / (avg_loss + 1e-10),
rsi = 100 - 100/(1+rs). -/
def rsiCol (period : Nat) (close : List ℚ) : List Cell :=
  List.zipWith (cmap2 (fun g l => 100 - 100 / (1 + g / (l + rsiEps))))
    (avgGainCol period close) (avgLossCol period close)

/-- indicators.calculate_rsi. -/
def calculate_rsi (period : Nat) (df : DF) : DF :=
  { df with rsi := some (rsiCol period df.dclose) }

/-- The atr column: Wilder-smoothed true range with min_periods = period. -/
def atrCol (period : Nat) (h l c : List ℚ) : List Cell :=
  ewmMean (1 / (period : ℚ)) period ((trList h l c).map some)

/-- indicators.calculate_atr. -/
def calculate_atr (period : Nat) (df : DF) : DF :=
  { df with atr := some (atrCol period df.dhigh df.dlow df.dclose) }

/-- indicators.calculate_adx: the simplified ADX, a rolling mean of atr;
computes atr first when the column is absent. -/
def calculate_adx (period : Nat) (df : DF) : DF :=
  let d := match df.atr with
    | none => calculate_atr period df
    | some _ => df
  { d with adx := some (rollingMean period (d.atr.getD [])) }

/-- indicators.calculate_volume_fraction:
vol_frac = volume / volume.rolling(window).mean(). -/
def calculate_volume_fraction (w : Nat) (df : DF) : DF :=
  { df with
    vol_frac := some (List.zipWith (cmap2 (· / ·)) (df.dvolume.map some)
      (rollingMean w (df.dvolume.map some))) }

/-- indicators.calculate_all_indicators: the six indicator passes in source
order, then the pd.to_numeric coercion loop (the identity on the already
numeric cells of this model), then df.ffill(inplace=True) and
df.bfill(inplace=True). -/
def calculate_all_indicators (efs ess mss rp atp adxp w : Nat) (df : DF) : DF :=
  dfBFill (dfFFill
    (calculate_volume_fraction w
      (calculate_adx adxp
        (calculate_atr atp
          (calculate_rsi rp
            (calculate_trend_emas
              (calculate_ema_macd efs ess mss df)))))))

/-- calculate_all_indicators at its default parameters
(12, 26, 9, 14, 14, 14, 20), as called by the strategy. -/
def calculate_all_indicators_def (df : DF) : DF :=
  calculate_all_indicators 12 26 9 14 14 14 20 df

/-- NewsHeliusBitqueryML.populate_indicators: all indicators, the
pd.to_numeric coercion (identity here), vol_ok = (atr/close > 0.0015)
(False on NaN atr, as in pandas), then ffill and bfill. -/
def populate_indicators (df : DF) : DF :=
  let d := calculate_all_indicators_def df
  let volok := List.zipWith
    (fun (a : Cell) (c : ℚ) =>
      match a with
      | some x => decide (x / c > 3 / 2000)
      | none => false)
    (d.atr.getD []) d.dclose
  dfBFill (dfFFill { d with vol_ok := some volok })

/-- trend_long column: ema50 > ema200. -/
def trendLongCol (df : DF) : List Bool :=
  List.zipWith cGT (df.ema50.getD []) (df.ema200.getD [])

/-- trend_short column: ema50 < ema200. -/
def trendShortCol (df : DF) : List Bool :=
  List.zipWith cLT (df.ema50.getD []) (df.ema200.getD [])

/-- macd_cross_up column: (macd > macd_sig) & (macd.shift(1) <= macd_sig.shift(1)). -/
def macdCrossUpCol (df : DF) : List Bool :=
  List.zipWith and
    (List.zipWith cGT (df.macd.getD []) (df.macd_sig.getD []))
    (List.zipWith cLE (shiftCell (df.macd.getD [])) (shiftCell (df.macd_sig.getD [])))

/-- macd_cross_down column: (macd < macd_sig) & (macd.shift(1) >= macd_sig.shift(1)). -/
def macdCrossDownCol (df : DF) : List Bool :=
  List.zipWith and
    (List.zipWith cLT (df.macd.getD []) (df.macd_sig.getD []))
    (List.zipWith cGE (shiftCell (df.macd.getD [])) (shiftCell (df.macd_sig.getD [])))

/-- rsi_ok_long column: rsi > 45. -/
def rsiOkLongCol (df : DF) : List Bool :=
  (df.rsi.getD []).map (fun c => cGT c (some 45))

/-- rsi_ok_short column: rsi < 55. -/
def rsiOkShortCol (df : DF) : List Bool :=
  (df.rsi.getD []).map (fun c => cLT c (some 55))

/-- astype(int) on a boolean column. -/
def boolTo01 (xs : List Bool) : List ℚ :=
  xs.map (fun b => if b then 1 else 0)

/-- NewsHeliusBitqueryML.populate_entry_trend:
enter_long = (trend_long & vol_ok & macd_cross_up & rsi_ok_long).astype(int),
enter_short mirrored. -/
def populate_entry_trend (df : DF) : DF :=
  let volok := df.vol_ok.getD []
  let longC := List.zipWith and
    (List.zipWith and (List.zipWith and (trendLongCol df) volok) (macdCrossUpCol df))
    (rsiOkLongCol df)
  let shortC := List.zipWith and
    (List.zipWith and (List.zipWith and (trendShortCol df) volok) (macdCrossDownCol df))
    (rsiOkShortCol df)
  { df with
    enter_long := some (boolTo01 longC)
    enter_short := some (boolTo01 shortC) }

/-- NewsHeliusBitqueryML.populate_exit_trend:
exit_long = ((macd < macd_sig) | (rsi < 50)).astype(int),
exit_short = ((macd > macd_sig) | (rsi > 50)).astype(int). -/
def populate_exit_trend (df : DF) : DF :=
  let exitL := List.zipWith or
    (List.zipWith cLT (df.macd.getD []) (df.macd_sig.getD []))
    ((df.rsi.getD []).map (fun c => cLT c (some 50)))
  let exitS := List.zipWith or
    (List.zipWith cGT (df.macd.getD []) (df.macd_sig.getD []))
    ((df.rsi.getD []).map (fun c => cGT c (some 50)))
  { df with
    exit_long := some (boolTo01 exitL)
    exit_short := some (boolTo01 exitS) }

/-- The full per-pair decision pipeline of NewsHeliusBitqueryML, as the
freqtrade driver invokes it on each candle dataframe. -/
def runPipeline (df : DF) : DF :=
  populate_exit_trend (populate_entry_trend (populate_indicators df))

/-! ## External signal generators (src/signals)

The remote world is abstracted as an environment: each sub-analysis field is
`none` when its remote call fails (network or parsing error — the Python
code catches the exception inside the sub-analysis and returns 0) and
`some data` when the call succeeds, where data is the already-decoded
payload the analysis loop iterates over.  Address classification
(_classify_address_type) is abstracted into the per-transfer address types,
and timestamps/dollar conversion into the per-record fields the loops
actually branch on. -/

/-- Address classes distinguished by BitquerySignalGenerator. -/
inductive AType : Type
  | exchange
  | whale
  | defi
  | regular
deriving DecidableEq

/-- One decoded transfer of _analyze_inflow_outflow: the summed amount and
the classified receiver/sender address types. -/
structure BQTransfer where
  amount : ℚ
  rtype : AType
  stype : AType
deriving DecidableEq

/-- One decoded transfer of _analyze_whale_accumulation: amount plus the
balances of its sender and receiver address lists. -/
structure BQWhaleTransfer where
  amount : ℚ
  senderBalances : List ℚ
  receiverBalances : List ℚ
deriving DecidableEq

/-- The remote world seen by one BitquerySignalGenerator.get_signal call. -/
structure BQEnv where
  transfers : Option (List BQTransfer)
  dex : Option (List ℚ × List ℚ)
  whaleTransfers : Option (List BQWhaleTransfer)
  exchangeFlows : Option (List ℚ × List ℚ)
deriving DecidableEq

/-- max(-1, min(1, x)): the clamp applied to every sub-score ratio. -/
def clampPM1 (x : ℚ) : ℚ := max (-1) (min 1 x)

/-- _analyze_inflow_outflow: classify each transfer into inflow/outflow
buckets, then the clamped imbalance ratio if total flow exceeds the $500K
materiality threshold, else 0; 0 on remote failure. -/
def analyze_inflow_outflow (env : BQEnv) : ℚ :=
  match env.transfers with
  | none => 0
  | some ts =>
    let p := ts.foldl
      (fun (p : ℚ × ℚ) t =>
        if t.rtype = AType.exchange ∧ t.stype = AType.whale then (p.1, p.2 + t.amount)
        else if t.rtype = AType.whale ∧ t.stype = AType.exchange then (p.1 + t.amount, p.2)
        else if t.rtype = AType.defi then (p.1 + t.amount * (1 / 2), p.2)
        else if t.stype = AType.defi then (p.1, p.2 + t.amount * (1 / 2))
        else p)
      (0, 0)
    let total := p.1 + p.2
    if total > 500000 then clampPM1 ((p.1 - p.2) / total) else 0

/-- _analyze_dex_activity: buy/sell USD volume sums; clamped imbalance
(amplified by 1.2) above the $2M volume threshold, else 0; 0 on failure. -/
def analyze_dex_activity (env : BQEnv) : ℚ :=
  match env.dex with
  | none => 0
  | some bs =>
    let bv := bs.1.sum
    let sv := bs.2.sum
    let total := bv + sv
    if total > 2000000 then clampPM1 ((bv - sv) / total * (12 / 10)) else 0

/-- _analyze_whale_accumulation: each transfer adds its amount once per
sender (resp. receiver) whose balance exceeds 10000 to the distribution
(resp. accumulation) bucket; clamped imbalance when total activity is
positive, else 0; 0 on failure. -/
def analyze_whale_accumulation (env : BQEnv) : ℚ :=
  match env.whaleTransfers with
  | none => 0
  | some ts =>
    let p := ts.foldl
      (fun (p : ℚ × ℚ) t =>
        (p.1 + (t.receiverBalances.countP (fun b => decide (b > 10000)) : ℚ) * t.amount,
         p.2 + (t.senderBalances.countP (fun b => decide (b > 10000)) : ℚ) * t.amount))
      (0, 0)
    let total := p.1 + p.2
    if total > 0 then clampPM1 ((p.1 - p.2) / total) else 0

/-- _analyze_exchange_flows: summed inflow/outflow amounts; clamped
(outflow-inflow)/total above the $500K threshold, else 0; 0 on failure. -/
def analyze_exchange_flows (env : BQEnv) : ℚ :=
  match env.exchangeFlows with
  | none => 0
  | some io =>
    let ia := io.1.sum
    let oa := io.2.sum
    let total := ia + oa
    if total > 500000 then clampPM1 ((oa - ia) / total) else 0

/-- The fixed-weight combination 0.3/0.25/0.25/0.2 of get_signal. -/
def bitquery_combined (env : BQEnv) : ℚ :=
  analyze_inflow_outflow env * (3 / 10) +
  analyze_dex_activity env * (1 / 4) +
  analyze_whale_accumulation env * (1 / 4) +
  analyze_exchange_flows env * (1 / 5)

/-- Discretization of get_signal: > 0.5 → 1, < -0.5 → -1, else 0. -/
def bitquery_compute (env : BQEnv) : ℤ :=
  if bitquery_combined env > 1 / 2 then 1
  else if bitquery_combined env < -(1 / 2) then -1
  else 0

/-- _extract_base_currency: the part before the first '/' when present,
else before the first '_' when present, else the whole pair. -/
def extractBase (p : List Char) : List Char :=
  if p.contains '/' then p.takeWhile (· ≠ '/')
  else if p.contains '_' then p.takeWhile (· ≠ '_')
  else p

/-- A time-bucketed cache key: base currency and bucket id
floor(now / cache_ttl).  The f-string key is injective in these two parts
(the bucket suffix is digits-only), so the pair is a faithful model. -/
abbrev CacheKey : Type := List Char × Nat

/-- First-match association lookup, modelling the Python dict. -/
def cacheLookup (c : List (CacheKey × ℤ)) (k : CacheKey) : Option ℤ :=
  (c.find? (fun e => decide (e.1 = k))).map (·.2)

/-- Mutable state of BitquerySignalGenerator: its self.cache dict. -/
structure BQState where
  cache : List (CacheKey × ℤ)
deriving DecidableEq

/-- BitquerySignalGenerator.get_signal (cache_ttl = 600 s): on a cache hit
return the stored signal; on a miss run the four sub-analyses, combine,
discretize, store and return.  The Bool reports whether the underlying
score computation ran (false on a cache hit). -/
def bq_get_signal (env : BQEnv) (pair : List Char) (t : Nat) (st : BQState) :
    ℤ × BQState × Bool :=
  let key : CacheKey := (extractBase pair, t / 600)
  match cacheLookup st.cache key with
  | some v => (v, st, false)
  | none =>
    let v := bitquery_compute env
    (v, ⟨(key, v) :: st.cache⟩, true)

/-- N successive get_signal calls at the given times, threading the cache
state; returns the results, the final state and how many times the
underlying computation ran. -/
def bq_calls (env : BQEnv) (pair : List Char) : List Nat → BQState → List ℤ × BQState × Nat
  | [], st => ([], st, 0)
  | t :: r, st =>
    let c := bq_get_signal env pair t st
    let rest := bq_calls env pair r c.2.1
    (c.1 :: rest.1, rest.2.1, rest.2.2 + (if c.2.2 then 1 else 0))

/-! News sentiment analyzer.  The environment is `none` when the article
fetch raised (in which case _get_recent_news returns the empty list) and
`some ps` with the per-article TextBlob polarities otherwise, most recent
first, as _analyze_sentiment consumes them. -/

/-- Exponential recency weighting of _analyze_sentiment: weight 0.7^i for
article index i; returns (weighted polarity sum, weight sum). -/
def sentGo : ℚ → List ℚ → ℚ × ℚ
  | _, [] => (0, 0)
  | w, s :: r =>
    let p := sentGo (w * (7 / 10)) r
    (s * w + p.1, w + p.2)

/-- _analyze_sentiment: 0 on the empty article set, else the weighted
average polarity (guarded by total_weight > 0). -/
def analyze_sentiment (arts : List ℚ) : ℚ :=
  if arts = [] then 0
  else
    let p := sentGo 1 arts
    if p.2 > 0 then p.1 / p.2 else 0

/-- Sentiment score then discretization by the ±0.3 thresholds; a failed
fetch yields the empty article list and hence the neutral 0. -/
def news_compute (env : Option (List ℚ)) : ℤ :=
  let s := analyze_sentiment (env.getD [])
  if s > 3 / 10 then 1
  else if s < -(3 / 10) then -1
  else 0

/-- _extract_base_currency of NewsSentimentAnalyzer:
trading_pair.split('/')[0].split(':')[0]. -/
def newsExtractBase (p : List Char) : List Char :=
  (p.takeWhile (· ≠ '/')).takeWhile (· ≠ ':')

/-- Mutable state of NewsSentimentAnalyzer: its self.cache dict. -/
structure NewsState where
  cache : List (CacheKey × ℤ)
deriving DecidableEq

/-- NewsSentimentAnalyzer.get_sentiment_signal (cache_ttl = 1800 s). -/
def news_get_signal (env : Option (List ℚ)) (pair : List Char) (t : Nat)
    (st : NewsState) : ℤ × NewsState × Bool :=
  let key : CacheKey := (newsExtractBase pair, t / 1800)
  match cacheLookup st.cache key with
  | some v => (v, st, false)
  | none =>
    let v := news_compute env
    (v, ⟨(key, v) :: st.cache⟩, true)

/-- N successive get_sentiment_signal calls, threading the cache. -/
def news_calls (env : Option (List ℚ)) (pair : List Char) :
    List Nat → NewsState → List ℤ × NewsState × Nat
  | [], st => ([], st, 0)
  | t :: r, st =>
    let c := news_get_signal env pair t st
    let rest := news_calls env pair r c.2.1
    (c.1 :: rest.1, rest.2.1, rest.2.2 + (if c.2.2 then 1 else 0))

/-! Helius signal generator.  Per-record fields abstract the timestamp
recency check, the USD conversion and the buy/sell classification helpers
the loops branch on. -/

/-- One transaction of _analyze_large_transactions. -/
structure HTx where
  isRecent : Bool
  amountUsd : ℚ
  isBuy : Bool
deriving DecidableEq

/-- One swap of _analyze_dex_activity. -/
structure HSwap where
  isRecent : Bool
  involvesSol : Bool
  volumeUsd : ℚ
  isBuy : Bool
deriving DecidableEq

/-- The remote world seen by one HeliusSignalGenerator.get_signal call. -/
structure HEnv where
  txs : Option (List HTx)
  swaps : Option (List HSwap)
  whaleChanges : Option (List ℚ)
deriving DecidableEq

/-- _analyze_large_transactions: recent transactions above the $100K
threshold split into buy/sell volume; clamped imbalance when total volume
is positive, else 0; 0 on failure. -/
def h_large_tx (env : HEnv) : ℚ :=
  match env.txs with
  | none => 0
  | some l =>
    let p := l.foldl
      (fun (p : ℚ × ℚ) t =>
        if t.isRecent ∧ t.amountUsd > 100000 then
          if t.isBuy then (p.1 + t.amountUsd, p.2) else (p.1, p.2 + t.amountUsd)
        else p)
      (0, 0)
    let total := p.1 + p.2
    if total > 0 then clampPM1 ((p.1 - p.2) / total) else 0

/-- _analyze_dex_activity (Helius): recent SOL swaps split into buy/sell
volume; clamped imbalance (amplified by 1.5) above the $1M volume
threshold, else 0; 0 on failure. -/
def h_dex_activity (env : HEnv) : ℚ :=
  match env.swaps with
  | none => 0
  | some l =>
    let p := l.foldl
      (fun (p : ℚ × ℚ) s =>
        if s.isRecent ∧ s.involvesSol then
          if s.isBuy then (p.1 + s.volumeUsd, p.2) else (p.1, p.2 + s.volumeUsd)
        else p)
      (0, 0)
    let total := p.1 + p.2
    if total > 1000000 then clampPM1 ((p.1 - p.2) / total * (3 / 2)) else 0

/-- _analyze_whale_movements: positive balance changes accumulate, negative
ones distribute; clamped imbalance when activity is positive, else 0;
0 on failure. -/
def h_whale_movements (env : HEnv) : ℚ :=
  match env.whaleChanges with
  | none => 0
  | some l =>
    let p := l.foldl
      (fun (p : ℚ × ℚ) c =>
        if c > 0 then (p.1 + |c|, p.2)
        else if c < 0 then (p.1, p.2 + |c|)
        else p)
      (0, 0)
    let total := p.1 + p.2
    if total > 0 then clampPM1 ((p.1 - p.2) / total) else 0

/-- The fixed-weight combination 0.4/0.4/0.2 of Helius get_signal. -/
def helius_combined (env : HEnv) : ℚ :=
  h_large_tx env * (2 / 5) +
  h_dex_activity env * (2 / 5) +
  h_whale_movements env * (1 / 5)

/-- Discretization of Helius get_signal: > 0.6 → 1, < -0.6 → -1, else 0. -/
def helius_compute (env : HEnv) : ℤ :=
  if helius_combined env > 3 / 5 then 1
  else if helius_combined env < -(3 / 5) then -1
  else 0

/-- Mutable state of HeliusSignalGenerator: its self.cache dict, keyed by
bucket only (its get_signal takes no trading pair). -/
structure HState where
  cache : List (Nat × ℤ)
deriving DecidableEq

/-- HeliusSignalGenerator.get_signal (cache_ttl = 300 s). -/
def h_get_signal (env : HEnv) (t : Nat) (st : HState) : ℤ × HState × Bool :=
  let key := t / 300
  match (st.cache.find? (fun e => decide (e.1 = key))).map (·.2) with
  | some v => (v, st, false)
  | none =>
    let v := helius_compute env
    (v, ⟨(key, v) :: st.cache⟩, true)

/-! ## ML model (src/signals/ml_model.py)

The two sklearn classifiers are abstracted as their predict_proba outputs
on the latest feature row: a pair of pairs ((p_down, p_up) per model).
`proba = none` models the degenerate paths that return neutral before the
ensemble runs (empty prepared features, NaN in the feature row).  Times are
rational seconds; retrain_interval_hours = 24, prediction_threshold = 0.6. -/

/-- Persistent state of MLModel relevant to predict. -/
structure MLState where
  trained : Bool
  last_training : Option ℚ
deriving DecidableEq

/-- MLModel._should_retrain: True when last_training is unset or more than
retrain_interval_hours = 24 hours have elapsed. -/
def should_retrain (st : MLState) (now : ℚ) : Bool :=
  match st.last_training with
  | none => true
  | some t => decide ((now - t) / 3600 > 24)

/-- MLModel.predict: neutral (0, 0.0) when untrained, stale, or the feature
path degenerates; else average the two predict_proba outputs and compare
prob_up / prob_down against the 0.6 threshold. -/
def ml_predict (st : MLState) (now : ℚ) (proba : Option ((ℚ × ℚ) × (ℚ × ℚ))) :
    ℤ × ℚ :=
  if !st.trained then (0, 0)
  else if should_retrain st now then (0, 0)
  else
    match proba with
    | none => (0, 0)
    | some pp =>
      let pu := (pp.1.2 + pp.2.2) / 2
      let pd := (pp.1.1 + pp.2.1) / 2
      if pu > 3 / 5 then (1, pu)
      else if pd > 3 / 5 then (-1, pd)
      else (0, max pu pd)

/-! ## Object-identity model for the non-mutation claim

Python dataframes are heap objects passed by reference.  A Store maps
object ids to DF values; each calculate_* function begins with
df = df.copy() (allocating a fresh object holding the argument's value) and
all its subsequent column assignments and in-place fills target that fresh
object, never the caller's.  hCalc captures this source shape: allocate a
copy, apply the body (the pure column computation of the function) to it. -/

/-- The heap of dataframe objects: values indexed by object id, plus the
next fresh id. -/
structure Store where
  mem : Nat → DF
  next : Nat

/-- In-place update of the object behind reference r (column assignment,
inplace ffill/bfill). -/
def writeRef (σ : Store) (r : Nat) (f : DF → DF) : Store :=
  { σ with mem := Function.update σ.mem r (f (σ.mem r)) }

/-- The common shape of every calculate_* helper: df = df.copy() then
column writes on the copy, returning the copy's reference. -/
def hCalc (body : DF → DF) (σ : Store) (r : Nat) : Nat × Store :=
  let c := σ.next
  let σ1 : Store := ⟨Function.update σ.mem c (σ.mem r), c + 1⟩
  (c, writeRef σ1 c body)

/-- Heap semantics of calculate_ema_macd. -/
def calculate_ema_macd_H (efs ess mss : Nat) (σ : Store) (r : Nat) : Nat × Store :=
  hCalc (calculate_ema_macd efs ess mss) σ r

/-- Heap semantics of calculate_trend_emas. -/
def calculate_trend_emas_H (σ : Store) (r : Nat) : Nat × Store :=
  hCalc calculate_trend_emas σ r

/-- Heap semantics of calculate_rsi. -/
def calculate_rsi_H (period : Nat) (σ : Store) (r : Nat) : Nat × Store :=
  hCalc (calculate_rsi period) σ r

/-- Heap semantics of calculate_atr. -/
def calculate_atr_H (period : Nat) (σ : Store) (r : Nat) : Nat × Store :=
  hCalc (calculate_atr period) σ r

/-- Heap semantics of calculate_adx (the possible nested calculate_atr call
inside the body allocates only fresh objects, so its value-level effect is
the pure body applied to the copy). -/
def calculate_adx_H (period : Nat) (σ : Store) (r : Nat) : Nat × Store :=
  hCalc (calculate_adx period) σ r

/-- Heap semantics of calculate_volume_fraction. -/
def calculate_volume_fraction_H (w : Nat) (σ : Store) (r : Nat) : Nat × Store :=
  hCalc (calculate_volume_fraction w) σ r

/-- Heap semantics of calculate_all_indicators: its own df = df.copy()
(a copy with no further writes of its own, hCalc id), the six helper calls
each rebinding the local name to the helper's fresh result object, then the
coercion loop and the in-place ffill/bfill applied to the last result
object. -/
def calculate_all_indicators_H (efs ess mss rp atp adxp w : Nat)
    (σ : Store) (r : Nat) : Nat × Store :=
  let s0 := hCalc id σ r
  let s1 := calculate_ema_macd_H efs ess mss s0.2 s0.1
  let s2 := calculate_trend_emas_H s1.2 s1.1
  let s3 := calculate_rsi_H rp s2.2 s2.1
  let s4 := calculate_atr_H atp s3.2 s3.1
  let s5 := calculate_adx_H adxp s4.2 s4.1
  let s6 := calculate_volume_fraction_H w s5.2 s5.1
  (s6.1, writeRef s6.2 s6.1 (fun d => dfBFill (dfFFill d)))

/-- Frame specification of a heap dataframe transformer: starting from any
valid reference, the result is a fresh object (allocated at or above the
old frontier), the frontier does not shrink, every pre-existing object is
untouched, and the fresh object holds the pure function of the argument's
value. -/
def FrameOK (f : Store → Nat → Nat × Store) (g : DF → DF) : Prop :=
  ∀ σ r, r < σ.next →
    σ.next ≤ (f σ r).1 ∧
    (f σ r).1 < (f σ r).2.next ∧
    σ.next ≤ (f σ r).2.next ∧
    (∀ j, j < σ.next → (f σ r).2.mem j = σ.mem j) ∧
    (f σ r).2.mem (f σ r).1 = g (σ.mem r)

/-! ## Concrete inputs for counterexamples and witnesses -/

/-- Two identical candles (open 1, high 2, low 1, close 1, volume 1). -/
def dfA : DF :=
  mkDF (List.replicate 2 1) (List.replicate 2 2) (List.replicate 2 1)
    (List.replicate 2 1) (List.replicate 2 1)

/-- The same two candles extended to fourteen by appending twelve more of
the identical candle. -/
def dfB : DF :=
  mkDF (List.replicate 14 1) (List.replicate 14 2) (List.replicate 14 1)
    (List.replicate 14 1) (List.replicate 14 1)

/-- Fifteen strictly rising closes. -/
def closes15 : List ℚ := [1, 2, 3, 4, 5, 6, 7, 8, 9, 10, 11, 12, 13, 14, 15]

/-- A strictly rising 15-candle dataframe with wide high-low ranges
(high = close + 1, low = close - 1). -/
def df15 : DF :=
  mkDF closes15 (closes15.map (· + 1)) (closes15.map (· - 1)) closes15
    (List.replicate 15 1)

/-- A Bitquery environment in which three sub-sources report strongly
bullish data and the exchange-flow remote call fails. -/
def bqEnvPartialFail : BQEnv :=
  { transfers := some [⟨1000000, AType.whale, AType.exchange⟩]
    dex := some ([3000000], [])
    whaleTransfers := some [⟨1000000, [], [20000]⟩]
    exchangeFlows := none }

/-- A Bitquery environment in which every remote call fails. -/
def bqEnvAllFail : BQEnv :=
  { transfers := none, dex := none, whaleTransfers := none, exchangeFlows := none }

/-- The trading pair used by the concrete cache scenarios. -/
def pairBTC : List Char := ['B', 'T', 'C', '/', 'U', 'S', 'D', 'T']

/-- Fifteen strictly rising closes starting at 0 (every diff is +1, so the
Wilder average loss is exactly 0 once defined). -/
def rising15 : List ℚ := [0, 1, 2, 3, 4, 5, 6, 7, 8, 9, 10, 11, 12, 13, 14]

/-- A one-object heap holding the empty candle dataframe. -/
def storeZero : Store := ⟨fun _ => mkDF [] [] [] [] [], 1⟩

/-! ## Theorems -/

theorem cacheLookup_cons_self (c : List (CacheKey × ℤ)) (k : CacheKey) (v : ℤ) :
    cacheLookup ((k, v) :: c) k = some v := by
  simp [cacheLookup, List.find?]

theorem bq_get_signal_miss (env : BQEnv) (pair : List Char) (t : Nat) (st : BQState)
    (h : cacheLookup st.cache (extractBase pair, t / 600) = none) :
    bq_get_signal env pair t st =
      (bitquery_compute env,
       ⟨((extractBase pair, t / 600), bitquery_compute env) :: st.cache⟩, true) := by
  simp [bq_get_signal, h]

theorem bq_get_signal_hit (env : BQEnv) (pair : List Char) (t : Nat) (st : BQState)
    (v : ℤ) (h : cacheLookup st.cache (extractBase pair, t / 600) = some v) :
    bq_get_signal env pair t st = (v, st, false) := by
  simp [bq_get_signal, h]

theorem bq_calls_all_hits (env : BQEnv) (pair : List Char) (b : Nat) (v : ℤ) :
    ∀ (ts : List Nat) (st : BQState), (∀ t ∈ ts, t / 600 = b) →
    cacheLookup st.cache (extractBase pair, b) = some v →
    bq_calls env pair ts st = (List.replicate ts.length v, st, 0) := by
  intro ts
  induction ts with
  | nil => intro st _ _; rfl
  | cons t r ih =>
    intro st hall hv
    have hk : t / 600 = b := hall t (List.mem_cons_self t r)
    have h1 : bq_get_signal env pair t st = (v, st, false) :=
      bq_get_signal_hit env pair t st v (by rw [hk]; exact hv)
    have h2 := ih st (fun u hu => hall u (List.mem_cons_of_mem t hu)) hv
    simp [bq_calls, h1, h2, List.replicate_succ]

theorem news_get_signal_miss (env : Option (List ℚ)) (pair : List Char) (t : Nat)
    (st : NewsState)
    (h : cacheLookup st.cache (newsExtractBase pair, t / 1800) = none) :
    news_get_signal env pair t st =
      (news_compute env,
       ⟨((newsExtractBase pair, t / 1800), news_compute env) :: st.cache⟩, true) := by
  simp [news_get_signal, h]

theorem news_get_signal_hit (env : Option (List ℚ)) (pair : List Char) (t : Nat)
    (st : NewsState) (v : ℤ)
    (h : cacheLookup st.cache (newsExtractBase pair, t / 1800) = some v) :
    news_get_signal env pair t st = (v, st, false) := by
  simp [news_get_signal, h]

theorem news_calls_all_hits (env : Option (List ℚ)) (pair : List Char) (b : Nat) (v : ℤ) :
    ∀ (ts : List Nat) (st : NewsState), (∀ t ∈ ts, t / 1800 = b) →
    cacheLookup st.cache (newsExtractBase pair, b) = some v →
    news_calls env pair ts st = (List.replicate ts.length v, st, 0) := by
  intro ts
  induction ts with
  | nil => intro st _ _; rfl
  | cons t r ih =>
    intro st hall hv
    have hk : t / 1800 = b := hall t (List.mem_cons_self t r)
    have h1 : news_get_signal env pair t st = (v, st, false) :=
      news_get_signal_hit env pair t st v (by rw [hk]; exact hv)
    have h2 := ih st (fun u hu => hall u (List.mem_cons_of_mem t hu)) hv
    simp [news_calls, h1, h2, List.replicate_succ]

/-- C2: At-most-once per bucket — for a fixed time bucket (floor(now /
cache_ttl)) and asset key, N calls to the public scoring method within that
bucket (starting from a cache with no entry for that key) run the
underlying score computation exactly once, and all N calls return the
identical cached value; stated for BitquerySignalGenerator.get_signal
(ttl 600) and NewsSentimentAnalyzer.get_sentiment_signal (ttl 1800). -/
theorem signal_cache_at_most_once_per_bucket :
    (∀ (env : BQEnv) (pair : List Char) (b : Nat) (ts : List Nat) (st : BQState),
      ts ≠ [] → (∀ t ∈ ts, t / 600 = b) →
      cacheLookup st.cache (extractBase pair, b) = none →
      (bq_calls env pair ts st).1 =
        List.replicate ts.length (bitquery_compute env) ∧
      (bq_calls env pair ts st).2.2 = 1) ∧
    (∀ (env : Option (List ℚ)) (pair : List Char) (b : Nat) (ts : List Nat)
      (st : NewsState),
      ts ≠ [] → (∀ t ∈ ts, t / 1800 = b) →
      cacheLookup st.cache (newsExtractBase pair, b) = none →
      (news_calls env pair ts st).1 =
        List.replicate ts.length (news_compute env) ∧
      (news_calls env pair ts st).2.2 = 1) := by
  constructor
  · intro env pair b ts st hne hall hmiss
    match ts, hne with
    | t :: r, _ =>
      have hk : t / 600 = b := hall t (List.mem_cons_self t r)
      have h1 := bq_get_signal_miss env pair t st (by rw [hk]; exact hmiss)
      have h2 := bq_calls_all_hits env pair b (bitquery_compute env) r
        (⟨((extractBase pair, t / 600), bitquery_compute env) :: st.cache⟩)
        (fun u hu => hall u (List.mem_cons_of_mem t hu))
        (by rw [hk]; exact cacheLookup_cons_self _ _ _)
      refine ⟨?_, ?_⟩ <;> simp [bq_calls, h1, h2, List.replicate]
  · intro env pair b ts st hne hall hmiss
    match ts, hne with
    | t :: r, _ =>
      have hk : t / 1800 = b := hall t (List.mem_cons_self t r)
      have h1 := news_get_signal_miss env pair t st (by rw [hk]; exact hmiss)
      have h2 := news_calls_all_hits env pair b (news_compute env) r
        (⟨((newsExtractBase pair, t / 1800), news_compute env) :: st.cache⟩)
        (fun u hu => hall u (List.mem_cons_of_mem t hu))
        (by rw [hk]; exact cacheLookup_cons_self _ _ _)
      refine ⟨?_, ?_⟩ <;> simp [news_calls, h1, h2, List.replicate]

/-- Witness for C2 at a concrete input: three calls in bucket 0 on an empty
cache return three identical values and run the computation once, for both
generators. -/
theorem signal_cache_at_most_once_per_bucket_witness :
    ((bq_calls bqEnvAllFail pairBTC [0, 1, 599] ⟨[]⟩).1 =
      List.replicate 3 (bitquery_compute bqEnvAllFail) ∧
     (bq_calls bqEnvAllFail pairBTC [0, 1, 599] ⟨[]⟩).2.2 = 1) ∧
    ((news_calls none pairBTC [0, 1, 1799] ⟨[]⟩).1 =
      List.replicate 3 (news_compute none) ∧
     (news_calls none pairBTC [0, 1, 1799] ⟨[]⟩).2.2 = 1) :=
  ⟨signal_cache_at_most_once_per_bucket.1 bqEnvAllFail pairBTC 0 [0, 1, 599] ⟨[]⟩
      (by decide) (by decide) rfl,
   signal_cache_at_most_once_per_bucket.2 none pairBTC 0 [0, 1, 1799] ⟨[]⟩
      (by decide) (by decide) rfl⟩

theorem bitquery_compute_all_fail (env : BQEnv)
    (h1 : env.transfers = none) (h2 : env.dex = none)
    (h3 : env.whaleTransfers = none) (h4 : env.exchangeFlows = none) :
    bitquery_compute env = 0 := by
  obtain ⟨tr, dx, wh, ex⟩ := env
  simp only at h1 h2 h3 h4
  subst h1; subst h2; subst h3; subst h4
  with_unfolding_all decide

/-- C4 counterexample: with every remote sub-computation failing, the
Bitquery scoring call on an empty cache returns the neutral 0 — but an
entry for that bucket IS stored in the cache (refuting the claim's "no
entry for that bucket is stored"), and a retry within the same bucket is a
cache hit that does not attempt the computation again. -/
theorem failure_not_cached_counterexample :
    (bq_get_signal bqEnvAllFail pairBTC 0 ⟨[]⟩).1 = 0 ∧
    cacheLookup (bq_get_signal bqEnvAllFail pairBTC 0 ⟨[]⟩).2.1.cache
      (extractBase pairBTC, 0) = some 0 ∧
    (bq_get_signal bqEnvAllFail pairBTC 42
      (bq_get_signal bqEnvAllFail pairBTC 0 ⟨[]⟩).2.1).2.2 = false := by
  with_unfolding_all decide

/-- C4 (amended): when the underlying remote computations fail, the scoring
call returns the neutral default 0, but this neutral result IS stored in
the cache under the current bucket key, so a retry within the same bucket
returns the cached 0 without re-attempting the computation; only a later
bucket recomputes.  Stated for BitquerySignalGenerator.get_signal (all four
sub-queries failing) and NewsSentimentAnalyzer.get_sentiment_signal (the
article fetch failing). -/
theorem failure_cached_neutral :
    (∀ (env : BQEnv) (pair : List Char) (t : Nat) (st : BQState),
      env.transfers = none → env.dex = none → env.whaleTransfers = none →
      env.exchangeFlows = none →
      cacheLookup st.cache (extractBase pair, t / 600) = none →
      (bq_get_signal env pair t st).1 = 0 ∧
      cacheLookup (bq_get_signal env pair t st).2.1.cache
        (extractBase pair, t / 600) = some 0 ∧
      (∀ t2, t2 / 600 = t / 600 →
        (bq_get_signal env pair t2 (bq_get_signal env pair t st).2.1).1 = 0 ∧
        (bq_get_signal env pair t2 (bq_get_signal env pair t st).2.1).2.2 = false)) ∧
    (∀ (pair : List Char) (t : Nat) (st : NewsState),
      cacheLookup st.cache (newsExtractBase pair, t / 1800) = none →
      (news_get_signal none pair t st).1 = 0 ∧
      cacheLookup (news_get_signal none pair t st).2.1.cache
        (newsExtractBase pair, t / 1800) = some 0 ∧
      (∀ t2, t2 / 1800 = t / 1800 →
        (news_get_signal none pair t2 (news_get_signal none pair t st).2.1).1 = 0 ∧
        (news_get_signal none pair t2 (news_get_signal none pair t st).2.1).2.2 =
          false)) := by
  constructor
  · intro env pair t st h1 h2 h3 h4 hmiss
    have hc : bitquery_compute env = 0 := bitquery_compute_all_fail env h1 h2 h3 h4
    have hm := bq_get_signal_miss env pair t st hmiss
    refine ⟨by rw [hm, hc], ?_, ?_⟩
    · rw [hm, hc]; exact cacheLookup_cons_self _ _ _
    · intro t2 ht2
      have hhit : cacheLookup (bq_get_signal env pair t st).2.1.cache
          (extractBase pair, t2 / 600) = some 0 := by
        rw [ht2, hm, hc]; exact cacheLookup_cons_self _ _ _
      rw [bq_get_signal_hit env pair t2 _ 0 hhit]
      exact ⟨rfl, rfl⟩
  · intro pair t st hmiss
    have hc : news_compute none = 0 := by with_unfolding_all decide
    have hm := news_get_signal_miss none pair t st hmiss
    refine ⟨by rw [hm, hc], ?_, ?_⟩
    · rw [hm, hc]; exact cacheLookup_cons_self _ _ _
    · intro t2 ht2
      have hhit : cacheLookup (news_get_signal none pair t st).2.1.cache
          (newsExtractBase pair, t2 / 1800) = some 0 := by
        rw [ht2, hm, hc]; exact cacheLookup_cons_self _ _ _
      rw [news_get_signal_hit none pair t2 _ 0 hhit]
      exact ⟨rfl, rfl⟩

/-- Witness for the amended C4 at a concrete failing environment. -/
theorem failure_cached_neutral_witness :
    ((bq_get_signal bqEnvAllFail pairBTC 7 ⟨[]⟩).1 = 0 ∧
     cacheLookup (bq_get_signal bqEnvAllFail pairBTC 7 ⟨[]⟩).2.1.cache
       (extractBase pairBTC, 7 / 600) = some 0 ∧
     (∀ t2, t2 / 600 = 7 / 600 →
       (bq_get_signal bqEnvAllFail pairBTC t2
         (bq_get_signal bqEnvAllFail pairBTC 7 ⟨[]⟩).2.1).1 = 0 ∧
       (bq_get_signal bqEnvAllFail pairBTC t2
         (bq_get_signal bqEnvAllFail pairBTC 7 ⟨[]⟩).2.1).2.2 = false)) ∧
    ((news_get_signal none pairBTC 7 ⟨[]⟩).1 = 0 ∧
     cacheLookup (news_get_signal none pairBTC 7 ⟨[]⟩).2.1.cache
       (newsExtractBase pairBTC, 7 / 1800) = some 0 ∧
     (∀ t2, t2 / 1800 = 7 / 1800 →
       (news_get_signal none pairBTC t2
         (news_get_signal none pairBTC 7 ⟨[]⟩).2.1).1 = 0 ∧
       (news_get_signal none pairBTC t2
         (news_get_signal none pairBTC 7 ⟨[]⟩).2.1).2.2 = false)) :=
  ⟨failure_cached_neutral.1 bqEnvAllFail pairBTC 7 ⟨[]⟩ rfl rfl rfl rfl rfl,
   failure_cached_neutral.2 pairBTC 7 ⟨[]⟩ rfl⟩

/-- C7: Staleness hard contract — if the model is untrained, or
last_training is unset, or more than retrain_interval_hours = 24 hours have
elapsed since last_training, MLModel.predict returns exactly (0, 0.0)
regardless of the input features. -/
theorem ml_predict_stale_neutral (st : MLState) (now : ℚ)
    (proba : Option ((ℚ × ℚ) × (ℚ × ℚ)))
    (h : st.trained = false ∨ st.last_training = none ∨
      ∃ t, st.last_training = some t ∧ (now - t) / 3600 > 24) :
    ml_predict st now proba = (0, 0) := by
  rcases h with h | h | ⟨t, ht, helapsed⟩
  · simp [ml_predict, h]
  · simp [ml_predict, should_retrain, h]
  · by_cases htr : st.trained
    · simp [ml_predict, htr, should_retrain, ht, helapsed]
    · simp [ml_predict, htr]

/-- Witness for C7: an untrained model and a stale model both return
(0, 0.0) on a concrete probability input. -/
theorem ml_predict_stale_neutral_witness :
    ml_predict ⟨false, none⟩ 0 (some ((0, 1), (0, 1))) = (0, 0) ∧
    ml_predict ⟨true, some 0⟩ 90000 (some ((0, 1), (0, 1))) = (0, 0) :=
  ⟨ml_predict_stale_neutral ⟨false, none⟩ 0 (some ((0, 1), (0, 1))) (Or.inl rfl),
   ml_predict_stale_neutral ⟨true, some 0⟩ 90000 (some ((0, 1), (0, 1)))
     (Or.inr (Or.inr ⟨0, rfl, by norm_num⟩))⟩

/-- C8: Ensemble decision rule — on a trained, non-stale model with valid
predict_proba outputs (componentwise nonnegative rows summing to 1), the
prediction averages the two class-probability pairs; the direction is 1
with confidence prob_up exactly when the averaged prob_up exceeds the 0.6
threshold, -1 with confidence prob_down exactly when the averaged prob_down
exceeds it, and otherwise 0 with confidence max(prob_up, prob_down); the
returned confidence lies in [0, 1]. -/
theorem ml_predict_ensemble (st : MLState) (now : ℚ) (rd ru gd gu : ℚ)
    (htr : st.trained = true) (hfresh : should_retrain st now = false)
    (hrd : 0 ≤ rd) (hru : 0 ≤ ru) (hr : rd + ru = 1)
    (hgd : 0 ≤ gd) (hgu : 0 ≤ gu) (hg : gd + gu = 1) :
    ((ml_predict st now (some ((rd, ru), (gd, gu)))).1 = 1 ↔
      (ru + gu) / 2 > 3 / 5) ∧
    ((ml_predict st now (some ((rd, ru), (gd, gu)))).1 = -1 ↔
      (rd + gd) / 2 > 3 / 5) ∧
    ((ml_predict st now (some ((rd, ru), (gd, gu)))).1 = 1 →
      (ml_predict st now (some ((rd, ru), (gd, gu)))).2 = (ru + gu) / 2) ∧
    ((ml_predict st now (some ((rd, ru), (gd, gu)))).1 = -1 →
      (ml_predict st now (some ((rd, ru), (gd, gu)))).2 = (rd + gd) / 2) ∧
    ((ml_predict st now (some ((rd, ru), (gd, gu)))).1 = 0 →
      (ml_predict st now (some ((rd, ru), (gd, gu)))).2 =
        max ((ru + gu) / 2) ((rd + gd) / 2)) ∧
    0 ≤ (ml_predict st now (some ((rd, ru), (gd, gu)))).2 ∧
    (ml_predict st now (some ((rd, ru), (gd, gu)))).2 ≤ 1 := by
  have hpu0 : 0 ≤ (ru + gu) / 2 := by linarith
  have hpd0 : 0 ≤ (rd + gd) / 2 := by linarith
  have hpu1 : (ru + gu) / 2 ≤ 1 := by linarith
  have hpd1 : (rd + gd) / 2 ≤ 1 := by linarith
  have hred : ml_predict st now (some ((rd, ru), (gd, gu))) =
      (if (ru + gu) / 2 > 3 / 5 then ((1 : ℤ), (ru + gu) / 2)
       else if (rd + gd) / 2 > 3 / 5 then ((-1 : ℤ), (rd + gd) / 2)
       else ((0 : ℤ), max ((ru + gu) / 2) ((rd + gd) / 2))) := by
    simp [ml_predict, htr, hfresh]
  rw [hred]
  by_cases hup : (ru + gu) / 2 > 3 / 5
  · have hnd : ¬ ((rd + gd) / 2 > 3 / 5) := by linarith
    rw [if_pos hup]
    exact ⟨iff_of_true rfl hup, iff_of_false (by simp) hnd,
      fun _ => rfl, fun h => absurd h (by simp at h), fun h => absurd h (by simp at h),
      hpu0, hpu1⟩
  · rw [if_neg hup]
    by_cases hdn : (rd + gd) / 2 > 3 / 5
    · rw [if_pos hdn]
      exact ⟨iff_of_false (by simp) hup, iff_of_true rfl hdn,
        fun h => absurd h (by simp at h), fun _ => rfl, fun h => absurd h (by simp at h),
        hpd0, hpd1⟩
    · rw [if_neg hdn]
      exact ⟨iff_of_false (by simp) hup, iff_of_false (by simp) hdn,
        fun h => absurd h (by simp at h), fun h => absurd h (by simp at h), fun _ => rfl,
        le_max_iff.mpr (Or.inl hpu0), max_le hpu1 hpd1⟩

/-- Witness for C8: a fresh trained model with averaged prob_up 0.8 returns
direction 1 with confidence 0.8. -/
theorem ml_predict_ensemble_witness :
    ((ml_predict ⟨true, some 0⟩ 0 (some ((3/10, 7/10), (1/10, 9/10)))).1 = 1 ↔
      ((7:ℚ)/10 + 9/10) / 2 > 3 / 5) ∧
    ((ml_predict ⟨true, some 0⟩ 0 (some ((3/10, 7/10), (1/10, 9/10)))).1 = -1 ↔
      ((3:ℚ)/10 + 1/10) / 2 > 3 / 5) ∧
    ((ml_predict ⟨true, some 0⟩ 0 (some ((3/10, 7/10), (1/10, 9/10)))).1 = 1 →
      (ml_predict ⟨true, some 0⟩ 0 (some ((3/10, 7/10), (1/10, 9/10)))).2 =
        ((7:ℚ)/10 + 9/10) / 2) ∧
    ((ml_predict ⟨true, some 0⟩ 0 (some ((3/10, 7/10), (1/10, 9/10)))).1 = -1 →
      (ml_predict ⟨true, some 0⟩ 0 (some ((3/10, 7/10), (1/10, 9/10)))).2 =
        ((3:ℚ)/10 + 1/10) / 2) ∧
    ((ml_predict ⟨true, some 0⟩ 0 (some ((3/10, 7/10), (1/10, 9/10)))).1 = 0 →
      (ml_predict ⟨true, some 0⟩ 0 (some ((3/10, 7/10), (1/10, 9/10)))).2 =
        max (((7:ℚ)/10 + 9/10) / 2) (((3:ℚ)/10 + 1/10) / 2)) ∧
    0 ≤ (ml_predict ⟨true, some 0⟩ 0 (some ((3/10, 7/10), (1/10, 9/10)))).2 ∧
    (ml_predict ⟨true, some 0⟩ 0 (some ((3/10, 7/10), (1/10, 9/10)))).2 ≤ 1 :=
  ml_predict_ensemble ⟨true, some 0⟩ 0 (3/10) (7/10) (1/10) (9/10) rfl
    (by with_unfolding_all decide) (by norm_num) (by norm_num) (by norm_num)
    (by norm_num) (by norm_num) (by norm_num)

theorem clampPM1_range (x : ℚ) : -1 ≤ clampPM1 x ∧ clampPM1 x ≤ 1 :=
  ⟨le_max_left _ _, max_le (by norm_num) (min_le_left _ _)⟩

theorem analyze_inflow_outflow_range (env : BQEnv) :
    -1 ≤ analyze_inflow_outflow env ∧ analyze_inflow_outflow env ≤ 1 := by
  unfold analyze_inflow_outflow
  cases env.transfers with
  | none => norm_num
  | some ts =>
    simp only
    split_ifs
    · exact clampPM1_range _
    · norm_num

theorem analyze_dex_activity_range (env : BQEnv) :
    -1 ≤ analyze_dex_activity env ∧ analyze_dex_activity env ≤ 1 := by
  unfold analyze_dex_activity
  cases env.dex with
  | none => norm_num
  | some bs =>
    simp only
    split_ifs
    · exact clampPM1_range _
    · norm_num

theorem analyze_whale_accumulation_range (env : BQEnv) :
    -1 ≤ analyze_whale_accumulation env ∧ analyze_whale_accumulation env ≤ 1 := by
  unfold analyze_whale_accumulation
  cases env.whaleTransfers with
  | none => norm_num
  | some ts =>
    simp only
    split_ifs
    · exact clampPM1_range _
    · norm_num

theorem analyze_exchange_flows_range (env : BQEnv) :
    -1 ≤ analyze_exchange_flows env ∧ analyze_exchange_flows env ≤ 1 := by
  unfold analyze_exchange_flows
  cases env.exchangeFlows with
  | none => norm_num
  | some io =>
    simp only
    split_ifs
    · exact clampPM1_range _
    · norm_num

theorem h_large_tx_range (env : HEnv) :
    -1 ≤ h_large_tx env ∧ h_large_tx env ≤ 1 := by
  unfold h_large_tx
  cases env.txs with
  | none => norm_num
  | some l =>
    simp only
    split_ifs
    · exact clampPM1_range _
    · norm_num

theorem h_dex_activity_range (env : HEnv) :
    -1 ≤ h_dex_activity env ∧ h_dex_activity env ≤ 1 := by
  unfold h_dex_activity
  cases env.swaps with
  | none => norm_num
  | some l =>
    simp only
    split_ifs
    · exact clampPM1_range _
    · norm_num

theorem h_whale_movements_range (env : HEnv) :
    -1 ≤ h_whale_movements env ∧ h_whale_movements env ≤ 1 := by
  unfold h_whale_movements
  cases env.whaleChanges with
  | none => norm_num
  | some l =>
    simp only
    split_ifs
    · exact clampPM1_range _
    · norm_num

theorem bitquery_compute_cases (env : BQEnv) :
    (bitquery_compute env = 1 ∨ bitquery_compute env = 0 ∨
      bitquery_compute env = -1) ∧
    (bitquery_compute env = 1 ↔ bitquery_combined env > 1 / 2) ∧
    (bitquery_compute env = -1 ↔ bitquery_combined env < -(1 / 2)) := by
  unfold bitquery_compute
  split_ifs with h1 h2
  · exact ⟨Or.inl rfl, iff_of_true rfl h1, iff_of_false (by decide) (by linarith)⟩
  · exact ⟨Or.inr (Or.inr rfl), iff_of_false (by decide) h1, iff_of_true rfl h2⟩
  · exact ⟨Or.inr (Or.inl rfl), iff_of_false (by decide) h1,
      iff_of_false (by decide) h2⟩

theorem helius_compute_cases (env : HEnv) :
    (helius_compute env = 1 ∨ helius_compute env = 0 ∨
      helius_compute env = -1) ∧
    (helius_compute env = 1 ↔ helius_combined env > 3 / 5) ∧
    (helius_compute env = -1 ↔ helius_combined env < -(3 / 5)) := by
  unfold helius_compute
  split_ifs with h1 h2
  · exact ⟨Or.inl rfl, iff_of_true rfl h1, iff_of_false (by decide) (by linarith)⟩
  · exact ⟨Or.inr (Or.inr rfl), iff_of_false (by decide) h1, iff_of_true rfl h2⟩
  · exact ⟨Or.inr (Or.inl rfl), iff_of_false (by decide) h1,
      iff_of_false (by decide) h2⟩

/-- C9 counterexample: in an environment where the exchange-flow remote
call errors but the other three sub-sources are strongly bullish, the
Bitquery scoring method returns 1, not 0 — refuting the claim's "0
whenever a remote-call error occurs". -/
theorem external_score_error_counterexample :
    (bq_get_signal bqEnvPartialFail pairBTC 0 ⟨[]⟩).1 = 1 ∧
    bqEnvPartialFail.exchangeFlows = none := by
  with_unfolding_all decide

/-- C9 (amended): External score totality and discretization — on a fresh
bucket, each external signal generator returns a value in {-1, 0, 1}: 1
exactly when the fixed-weight combination of sub-scores (0.3/0.25/0.25/0.2
for Bitquery, 0.4/0.4/0.2 for Helius, each sub-score a clamped ratio in
[-1, 1] that is 0 below its materiality threshold) exceeds the positive
threshold (0.5 resp. 0.6), -1 exactly when it is below the symmetric
negative threshold, 0 otherwise.  A remote-call error zeroes the affected
sub-score (it does not force the overall result to 0: see the
counterexample), and a failure of every sub-call yields 0; no exception
crosses the boundary (the embedded functions are total). -/
theorem external_score_totality_discretization :
    (∀ (env : BQEnv) (pair : List Char) (t : Nat) (st : BQState),
      cacheLookup st.cache (extractBase pair, t / 600) = none →
      ((bq_get_signal env pair t st).1 = 1 ∨ (bq_get_signal env pair t st).1 = 0 ∨
        (bq_get_signal env pair t st).1 = -1) ∧
      ((bq_get_signal env pair t st).1 = 1 ↔ bitquery_combined env > 1 / 2) ∧
      ((bq_get_signal env pair t st).1 = -1 ↔ bitquery_combined env < -(1 / 2)) ∧
      (-1 ≤ analyze_inflow_outflow env ∧ analyze_inflow_outflow env ≤ 1) ∧
      (-1 ≤ analyze_dex_activity env ∧ analyze_dex_activity env ≤ 1) ∧
      (-1 ≤ analyze_whale_accumulation env ∧ analyze_whale_accumulation env ≤ 1) ∧
      (-1 ≤ analyze_exchange_flows env ∧ analyze_exchange_flows env ≤ 1) ∧
      (env.transfers = none → analyze_inflow_outflow env = 0) ∧
      (env.dex = none → analyze_dex_activity env = 0) ∧
      (env.whaleTransfers = none → analyze_whale_accumulation env = 0) ∧
      (env.exchangeFlows = none → analyze_exchange_flows env = 0)) ∧
    (∀ (env : HEnv) (t : Nat) (st : HState),
      (st.cache.find? (fun e => decide (e.1 = t / 300))).map (·.2) = none →
      ((h_get_signal env t st).1 = 1 ∨ (h_get_signal env t st).1 = 0 ∨
        (h_get_signal env t st).1 = -1) ∧
      ((h_get_signal env t st).1 = 1 ↔ helius_combined env > 3 / 5) ∧
      ((h_get_signal env t st).1 = -1 ↔ helius_combined env < -(3 / 5)) ∧
      (-1 ≤ h_large_tx env ∧ h_large_tx env ≤ 1) ∧
      (-1 ≤ h_dex_activity env ∧ h_dex_activity env ≤ 1) ∧
      (-1 ≤ h_whale_movements env ∧ h_whale_movements env ≤ 1) ∧
      (env.txs = none → h_large_tx env = 0) ∧
      (env.swaps = none → h_dex_activity env = 0) ∧
      (env.whaleChanges = none → h_whale_movements env = 0)) := by
  constructor
  · intro env pair t st hmiss
    have hm : (bq_get_signal env pair t st).1 = bitquery_compute env := by
      rw [bq_get_signal_miss env pair t st hmiss]
    rw [hm]
    obtain ⟨hval, hiff1, hiff2⟩ := bitquery_compute_cases env
    refine ⟨hval, hiff1, hiff2, analyze_inflow_outflow_range env,
      analyze_dex_activity_range env, analyze_whale_accumulation_range env,
      analyze_exchange_flows_range env, ?_, ?_, ?_, ?_⟩
    · intro h; simp [analyze_inflow_outflow, h]
    · intro h; simp [analyze_dex_activity, h]
    · intro h; simp [analyze_whale_accumulation, h]
    · intro h; simp [analyze_exchange_flows, h]
  · intro env t st hmiss
    have hm : (h_get_signal env t st).1 = helius_compute env := by
      simp [h_get_signal, hmiss]
    rw [hm]
    obtain ⟨hval, hiff1, hiff2⟩ := helius_compute_cases env
    refine ⟨hval, hiff1, hiff2, h_large_tx_range env, h_dex_activity_range env,
      h_whale_movements_range env, ?_, ?_, ?_⟩
    · intro h; simp [h_large_tx, h]
    · intro h; simp [h_dex_activity, h]
    · intro h; simp [h_whale_movements, h]

/-- Witness for the amended C9 at a concrete fresh-bucket input. -/
theorem external_score_totality_discretization_witness :
    (((bq_get_signal bqEnvPartialFail pairBTC 3 ⟨[]⟩).1 = 1 ∨
      (bq_get_signal bqEnvPartialFail pairBTC 3 ⟨[]⟩).1 = 0 ∨
      (bq_get_signal bqEnvPartialFail pairBTC 3 ⟨[]⟩).1 = -1) ∧
     ((bq_get_signal bqEnvPartialFail pairBTC 3 ⟨[]⟩).1 = 1 ↔
       bitquery_combined bqEnvPartialFail > 1 / 2) ∧
     ((bq_get_signal bqEnvPartialFail pairBTC 3 ⟨[]⟩).1 = -1 ↔
       bitquery_combined bqEnvPartialFail < -(1 / 2)) ∧
     (-1 ≤ analyze_inflow_outflow bqEnvPartialFail ∧
       analyze_inflow_outflow bqEnvPartialFail ≤ 1) ∧
     (-1 ≤ analyze_dex_activity bqEnvPartialFail ∧
       analyze_dex_activity bqEnvPartialFail ≤ 1) ∧
     (-1 ≤ analyze_whale_accumulation bqEnvPartialFail ∧
       analyze_whale_accumulation bqEnvPartialFail ≤ 1) ∧
     (-1 ≤ analyze_exchange_flows bqEnvPartialFail ∧
       analyze_exchange_flows bqEnvPartialFail ≤ 1) ∧
     (bqEnvPartialFail.transfers = none →
       analyze_inflow_outflow bqEnvPartialFail = 0) ∧
     (bqEnvPartialFail.dex = none → analyze_dex_activity bqEnvPartialFail = 0) ∧
     (bqEnvPartialFail.whaleTransfers = none →
       analyze_whale_accumulation bqEnvPartialFail = 0) ∧
     (bqEnvPartialFail.exchangeFlows = none →
       analyze_exchange_flows bqEnvPartialFail = 0)) ∧
    (((h_get_signal ⟨none, none, none⟩ 3 ⟨[]⟩).1 = 1 ∨
      (h_get_signal ⟨none, none, none⟩ 3 ⟨[]⟩).1 = 0 ∨
      (h_get_signal ⟨none, none, none⟩ 3 ⟨[]⟩).1 = -1) ∧
     ((h_get_signal ⟨none, none, none⟩ 3 ⟨[]⟩).1 = 1 ↔
       helius_combined ⟨none, none, none⟩ > 3 / 5) ∧
     ((h_get_signal ⟨none, none, none⟩ 3 ⟨[]⟩).1 = -1 ↔
       helius_combined ⟨none, none, none⟩ < -(3 / 5)) ∧
     (-1 ≤ h_large_tx ⟨none, none, none⟩ ∧ h_large_tx ⟨none, none, none⟩ ≤ 1) ∧
     (-1 ≤ h_dex_activity ⟨none, none, none⟩ ∧
       h_dex_activity ⟨none, none, none⟩ ≤ 1) ∧
     (-1 ≤ h_whale_movements ⟨none, none, none⟩ ∧
       h_whale_movements ⟨none, none, none⟩ ≤ 1) ∧
     (HEnv.txs ⟨none, none, none⟩ = none → h_large_tx ⟨none, none, none⟩ = 0) ∧
     (HEnv.swaps ⟨none, none, none⟩ = none →
       h_dex_activity ⟨none, none, none⟩ = 0) ∧
     (HEnv.whaleChanges ⟨none, none, none⟩ = none →
       h_whale_movements ⟨none, none, none⟩ = 0)) :=
  ⟨external_score_totality_discretization.1 bqEnvPartialFail pairBTC 3 ⟨[]⟩ rfl,
   external_score_totality_discretization.2 ⟨none, none, none⟩ 3 ⟨[]⟩ rfl⟩

/-- C3: Replay determinism — the decision pipeline (populate_indicators,
populate_entry_trend, populate_exit_trend of NewsHeliusBitqueryML) is a
pure function of the candle dataframe: running it twice on equal copies of
the same dataframe yields identical enter_long, enter_short, exit_long and
exit_short columns (the embedded pipeline reads nothing but the dataframe —
no wall clock, no hidden state). -/
theorem replay_determinism (df1 df2 : DF) (h : df1 = df2) :
    (runPipeline df1).enter_long = (runPipeline df2).enter_long ∧
    (runPipeline df1).enter_short = (runPipeline df2).enter_short ∧
    (runPipeline df1).exit_long = (runPipeline df2).exit_long ∧
    (runPipeline df1).exit_short = (runPipeline df2).exit_short := by
  subst h
  exact ⟨rfl, rfl, rfl, rfl⟩

/-- Witness for C3 on a concrete dataframe. -/
theorem replay_determinism_witness :
    (runPipeline df15).enter_long = (runPipeline df15).enter_long ∧
    (runPipeline df15).enter_short = (runPipeline df15).enter_short ∧
    (runPipeline df15).exit_long = (runPipeline df15).exit_long ∧
    (runPipeline df15).exit_short = (runPipeline df15).exit_short :=
  replay_determinism df15 df15 rfl

theorem emaGo_length (a : ℚ) : ∀ (s : ℚ) (xs : List ℚ),
    (emaGo a s xs).length = xs.length := by
  intro s xs
  induction xs generalizing s with
  | nil => rfl
  | cons x r ih => simp [emaGo, ih]

theorem emaList_length (a : ℚ) (xs : List ℚ) : (emaList a xs).length = xs.length := by
  cases xs with
  | nil => rfl
  | cons x r => simp [emaList, emaGo_length]

theorem ewmGo_length (a : ℚ) (minp : Nat) : ∀ (xs : List Cell) (s : Option ℚ) (cnt : Nat),
    (ewmGo a minp s cnt xs).length = xs.length := by
  intro xs
  induction xs with
  | nil => intro s cnt; cases s <;> rfl
  | cons c r ih => intro s cnt; cases s <;> cases c <;> simp [ewmGo, ih]

theorem ewmMean_length (a : ℚ) (minp : Nat) (xs : List Cell) :
    (ewmMean a minp xs).length = xs.length := ewmGo_length a minp xs none 0

theorem diffList_length (xs : List ℚ) : (diffList xs).length = xs.length := by
  cases xs with
  | nil => rfl
  | cons x r => simp [diffList]

theorem trGo_length : ∀ (cs hs ls : List ℚ) (pc : ℚ),
    hs.length = cs.length → ls.length = cs.length →
    (trGo pc hs ls cs).length = cs.length := by
  intro cs
  induction cs with
  | nil =>
    intro hs ls pc hh hl
    cases hs with
    | nil => cases ls <;> rfl
    | cons a as => simp at hh
  | cons c cr ih =>
    intro hs ls pc hh hl
    cases hs with
    | nil => simp at hh
    | cons h hr =>
      cases ls with
      | nil => simp at hl
      | cons l lr =>
        simp only [List.length_cons] at hh hl
        simp [trGo, ih hr lr c (by omega) (by omega)]

theorem trList_length (hs ls cs : List ℚ)
    (hh : hs.length = cs.length) (hl : ls.length = cs.length) :
    (trList hs ls cs).length = cs.length := by
  cases cs with
  | nil => cases hs with
    | nil => cases ls <;> rfl
    | cons a as => simp at hh
  | cons c cr =>
    cases hs with
    | nil => simp at hh
    | cons h hr =>
      cases ls with
      | nil => simp at hl
      | cons l lr =>
        simp only [List.length_cons] at hh hl
        simp [trList, trGo_length cr hr lr c (by omega) (by omega)]

theorem rollingMean_length (w : Nat) (xs : List Cell) :
    (rollingMean w xs).length = xs.length := by
  simp [rollingMean]

theorem ffillGo_length : ∀ (xs : List Cell) (s : Option ℚ),
    (ffillGo s xs).length = xs.length := by
  intro xs
  induction xs with
  | nil => intro s; rfl
  | cons c r ih => intro s; cases c <;> simp [ffillGo, ih]

theorem ffillCol_length (xs : List Cell) : (ffillCol xs).length = xs.length :=
  ffillGo_length xs none

theorem bfillCol_length (xs : List Cell) : (bfillCol xs).length = xs.length := by
  simp [bfillCol, ffillGo_length]

theorem calc_all_fields (efs ess mss rp atp adxp w : Nat) (df : DF) :
    (calculate_all_indicators efs ess mss rp atp adxp w df).ema_fast =
      some (bfillCol (ffillCol ((emaList (2 / ((efs : ℚ) + 1)) df.dclose).map some))) ∧
    (calculate_all_indicators efs ess mss rp atp adxp w df).ema_slow =
      some (bfillCol (ffillCol ((emaList (2 / ((ess : ℚ) + 1)) df.dclose).map some))) ∧
    (calculate_all_indicators efs ess mss rp atp adxp w df).macd =
      some (bfillCol (ffillCol ((List.zipWith (· - ·)
        (emaList (2 / ((efs : ℚ) + 1)) df.dclose)
        (emaList (2 / ((ess : ℚ) + 1)) df.dclose)).map some))) ∧
    (calculate_all_indicators efs ess mss rp atp adxp w df).macd_sig =
      some (bfillCol (ffillCol ((emaList (2 / ((mss : ℚ) + 1))
        (List.zipWith (· - ·) (emaList (2 / ((efs : ℚ) + 1)) df.dclose)
          (emaList (2 / ((ess : ℚ) + 1)) df.dclose))).map some))) ∧
    (calculate_all_indicators efs ess mss rp atp adxp w df).macd_hist =
      some (bfillCol (ffillCol ((List.zipWith (· - ·)
        (List.zipWith (· - ·) (emaList (2 / ((efs : ℚ) + 1)) df.dclose)
          (emaList (2 / ((ess : ℚ) + 1)) df.dclose))
        (emaList (2 / ((mss : ℚ) + 1))
          (List.zipWith (· - ·) (emaList (2 / ((efs : ℚ) + 1)) df.dclose)
            (emaList (2 / ((ess : ℚ) + 1)) df.dclose)))).map some))) ∧
    (calculate_all_indicators efs ess mss rp atp adxp w df).ema50 =
      some (bfillCol (ffillCol ((emaList (2 / 51) df.dclose).map some))) ∧
    (calculate_all_indicators efs ess mss rp atp adxp w df).ema200 =
      some (bfillCol (ffillCol ((emaList (2 / 201) df.dclose).map some))) ∧
    (calculate_all_indicators efs ess mss rp atp adxp w df).rsi =
      some (bfillCol (ffillCol (rsiCol rp df.dclose))) ∧
    (calculate_all_indicators efs ess mss rp atp adxp w df).atr =
      some (bfillCol (ffillCol (atrCol atp df.dhigh df.dlow df.dclose))) ∧
    (calculate_all_indicators efs ess mss rp atp adxp w df).adx =
      some (bfillCol (ffillCol
        (rollingMean adxp (atrCol atp df.dhigh df.dlow df.dclose)))) ∧
    (calculate_all_indicators efs ess mss rp atp adxp w df).vol_frac =
      some (bfillCol (ffillCol (List.zipWith (cmap2 (· / ·)) (df.dvolume.map some)
        (rollingMean w (df.dvolume.map some))))) :=
  ⟨rfl, rfl, rfl, rfl, rfl, rfl, rfl, rfl, rfl, rfl, rfl⟩

theorem emaGo_append (a s : ℚ) (xs ys : List ℚ) :
    emaGo a s (xs ++ ys) =
      emaGo a s xs ++ emaGo a (xs.foldl (fun t x => a * x + (1 - a) * t) s) ys := by
  induction xs generalizing s with
  | nil => rfl
  | cons x r ih => simp [emaGo, ih]

theorem emaList_split (a : ℚ) (xs ys : List ℚ) :
    ∃ zs, emaList a (xs ++ ys) = emaList a xs ++ zs := by
  cases xs with
  | nil => exact ⟨emaList a ys, rfl⟩
  | cons x r =>
    refine ⟨emaGo a (r.foldl (fun t y => a * y + (1 - a) * t) x) ys, ?_⟩
    simp [emaList, emaGo_append]

theorem take_len_append {α : Type} (p r : List α) (n : Nat) (h : p.length = n) :
    (p ++ r).take n = p := by
  subst h
  exact List.take_left p r

theorem take_map_some (p r : List ℚ) (n : Nat) (h : p.length = n) :
    ((p ++ r).map some).take n = p.map some := by
  rw [List.map_append]
  exact take_len_append _ _ _ (by simp [h])

/-- C1 counterexample: take the 2-candle dataframe dfA and extend it to the
14-candle dfB by appending 12 further identical candles (the first two
candle rows agree across all five columns).  The atr column of
calculate_all_indicators is [NaN, NaN] on dfA but [1, 1] on rows 0..1 of
dfB: the final bfill copied the value first defined at row 13 — computed
from candles 0..13 — back into rows 0 and 1, so appending future candles
changed past output rows, refuting the no-lookahead claim. -/
theorem no_lookahead_counterexample :
    dfB.dopen.take 2 = dfA.dopen ∧ dfB.dhigh.take 2 = dfA.dhigh ∧
    dfB.dlow.take 2 = dfA.dlow ∧ dfB.dclose.take 2 = dfA.dclose ∧
    dfB.dvolume.take 2 = dfA.dvolume ∧
    ((calculate_all_indicators_def dfA).atr.getD []).take 2 = [none, none] ∧
    ((calculate_all_indicators_def dfB).atr.getD []).take 2 = [some 1, some 1] := by
  with_unfolding_all decide

/-- C1 (amended): calculate_all_indicators preserves the row count — on a
well-formed candle dataframe every produced indicator column (ema_fast,
ema_slow, macd, macd_sig, macd_hist, ema50, ema200, rsi, atr, adx,
vol_frac) has exactly as many rows as the input — and the raw EMA/MACD
computation (calculate_ema_macd, which applies no fill) is lookahead-free:
appending further candles and recomputing leaves rows 0..i of all five of
its columns unchanged.  The final bfill of calculate_all_indicators,
however, makes warm-up rows of the min_periods-masked columns depend on
later candles (see the counterexample), so the no-lookahead property holds
for the pre-fill computation but not for the whole of
calculate_all_indicators. -/
theorem indicator_lengths_and_ema_macd_no_lookahead :
    (∀ (efs ess mss rp atp adxp w : Nat) (df : DF),
      df.dhigh.length = nRows df → df.dlow.length = nRows df →
      df.dvolume.length = nRows df →
      ((∃ l, (calculate_all_indicators efs ess mss rp atp adxp w df).ema_fast =
          some l ∧ l.length = nRows df) ∧
       (∃ l, (calculate_all_indicators efs ess mss rp atp adxp w df).ema_slow =
          some l ∧ l.length = nRows df) ∧
       (∃ l, (calculate_all_indicators efs ess mss rp atp adxp w df).macd =
          some l ∧ l.length = nRows df) ∧
       (∃ l, (calculate_all_indicators efs ess mss rp atp adxp w df).macd_sig =
          some l ∧ l.length = nRows df) ∧
       (∃ l, (calculate_all_indicators efs ess mss rp atp adxp w df).macd_hist =
          some l ∧ l.length = nRows df) ∧
       (∃ l, (calculate_all_indicators efs ess mss rp atp adxp w df).ema50 =
          some l ∧ l.length = nRows df) ∧
       (∃ l, (calculate_all_indicators efs ess mss rp atp adxp w df).ema200 =
          some l ∧ l.length = nRows df) ∧
       (∃ l, (calculate_all_indicators efs ess mss rp atp adxp w df).rsi =
          some l ∧ l.length = nRows df) ∧
       (∃ l, (calculate_all_indicators efs ess mss rp atp adxp w df).atr =
          some l ∧ l.length = nRows df) ∧
       (∃ l, (calculate_all_indicators efs ess mss rp atp adxp w df).adx =
          some l ∧ l.length = nRows df) ∧
       (∃ l, (calculate_all_indicators efs ess mss rp atp adxp w df).vol_frac =
          some l ∧ l.length = nRows df))) ∧
    (∀ (efs ess mss : Nat) (df dfe : DF) (ys : List ℚ),
      dfe.dclose = df.dclose ++ ys →
      (((calculate_ema_macd efs ess mss dfe).ema_fast.getD []).take (nRows df) =
        (calculate_ema_macd efs ess mss df).ema_fast.getD [] ∧
       ((calculate_ema_macd efs ess mss dfe).ema_slow.getD []).take (nRows df) =
        (calculate_ema_macd efs ess mss df).ema_slow.getD [] ∧
       ((calculate_ema_macd efs ess mss dfe).macd.getD []).take (nRows df) =
        (calculate_ema_macd efs ess mss df).macd.getD [] ∧
       ((calculate_ema_macd efs ess mss dfe).macd_sig.getD []).take (nRows df) =
        (calculate_ema_macd efs ess mss df).macd_sig.getD [] ∧
       ((calculate_ema_macd efs ess mss dfe).macd_hist.getD []).take (nRows df) =
        (calculate_ema_macd efs ess mss df).macd_hist.getD [])) := by
  constructor
  · intro efs ess mss rp atp adxp w df hh hl hv
    obtain ⟨hef, hes, hm, hms, hmh, h50, h200, hrsi, hatr, hadx, hvf⟩ :=
      calc_all_fields efs ess mss rp atp adxp w df
    have hn : df.dclose.length = nRows df := rfl
    refine ⟨⟨_, hef, ?_⟩, ⟨_, hes, ?_⟩, ⟨_, hm, ?_⟩, ⟨_, hms, ?_⟩, ⟨_, hmh, ?_⟩,
      ⟨_, h50, ?_⟩, ⟨_, h200, ?_⟩, ⟨_, hrsi, ?_⟩, ⟨_, hatr, ?_⟩, ⟨_, hadx, ?_⟩,
      ⟨_, hvf, ?_⟩⟩ <;>
    simp [bfillCol_length, ffillCol_length, emaList_length, List.length_zipWith,
      rsiCol, avgGainCol, avgLossCol, ewmMean_length, diffList_length,
      atrCol, trList_length df.dhigh df.dlow df.dclose (hh.trans hn.symm)
        (hl.trans hn.symm),
      rollingMean_length, hn, hh, hl, hv]
  · intro efs ess mss df dfe ys hclose
    obtain ⟨z1, he1⟩ := emaList_split (2 / ((efs : ℚ) + 1)) df.dclose ys
    obtain ⟨z2, he2⟩ := emaList_split (2 / ((ess : ℚ) + 1)) df.dclose ys
    have hn1 : (emaList (2 / ((efs : ℚ) + 1)) df.dclose).length = nRows df :=
      emaList_length _ _
    have hn2 : (emaList (2 / ((ess : ℚ) + 1)) df.dclose).length = nRows df :=
      emaList_length _ _
    have hmacd : List.zipWith (· - ·) (emaList (2 / ((efs : ℚ) + 1)) dfe.dclose)
        (emaList (2 / ((ess : ℚ) + 1)) dfe.dclose) =
        List.zipWith (· - ·) (emaList (2 / ((efs : ℚ) + 1)) df.dclose)
          (emaList (2 / ((ess : ℚ) + 1)) df.dclose) ++ List.zipWith (· - ·) z1 z2 := by
      rw [hclose, he1, he2]
      exact List.zipWith_append _ _ _ _ _ (hn1.trans hn2.symm)
    have hnm : (List.zipWith (· - ·) (emaList (2 / ((efs : ℚ) + 1)) df.dclose)
        (emaList (2 / ((ess : ℚ) + 1)) df.dclose)).length = nRows df := by
      rw [List.length_zipWith, hn1, hn2]
      exact Nat.min_self _
    obtain ⟨z3, he3⟩ := emaList_split (2 / ((mss : ℚ) + 1))
      (List.zipWith (· - ·) (emaList (2 / ((efs : ℚ) + 1)) df.dclose)
        (emaList (2 / ((ess : ℚ) + 1)) df.dclose)) (List.zipWith (· - ·) z1 z2)
    have hnsig : (emaList (2 / ((mss : ℚ) + 1))
        (List.zipWith (· - ·) (emaList (2 / ((efs : ℚ) + 1)) df.dclose)
          (emaList (2 / ((ess : ℚ) + 1)) df.dclose))).length = nRows df := by
      rw [emaList_length]
      exact hnm
    have hhist : List.zipWith (· - ·)
        (List.zipWith (· - ·) (emaList (2 / ((efs : ℚ) + 1)) dfe.dclose)
          (emaList (2 / ((ess : ℚ) + 1)) dfe.dclose))
        (emaList (2 / ((mss : ℚ) + 1))
          (List.zipWith (· - ·) (emaList (2 / ((efs : ℚ) + 1)) dfe.dclose)
            (emaList (2 / ((ess : ℚ) + 1)) dfe.dclose))) =
        List.zipWith (· - ·)
          (List.zipWith (· - ·) (emaList (2 / ((efs : ℚ) + 1)) df.dclose)
            (emaList (2 / ((ess : ℚ) + 1)) df.dclose))
          (emaList (2 / ((mss : ℚ) + 1))
            (List.zipWith (· - ·) (emaList (2 / ((efs : ℚ) + 1)) df.dclose)
              (emaList (2 / ((ess : ℚ) + 1)) df.dclose))) ++
          List.zipWith (· - ·) (List.zipWith (· - ·) z1 z2) z3 := by
      rw [hmacd, he3]
      exact List.zipWith_append _ _ _ _ _ (hnm.trans hnsig.symm)
    refine ⟨?_, ?_, ?_, ?_, ?_⟩
    · show ((emaList (2 / ((efs : ℚ) + 1)) dfe.dclose).map some).take (nRows df) =
        (emaList (2 / ((efs : ℚ) + 1)) df.dclose).map some
      rw [hclose, he1]
      exact take_map_some _ _ _ hn1
    · show ((emaList (2 / ((ess : ℚ) + 1)) dfe.dclose).map some).take (nRows df) =
        (emaList (2 / ((ess : ℚ) + 1)) df.dclose).map some
      rw [hclose, he2]
      exact take_map_some _ _ _ hn2
    · show ((List.zipWith (· - ·) (emaList (2 / ((efs : ℚ) + 1)) dfe.dclose)
          (emaList (2 / ((ess : ℚ) + 1)) dfe.dclose)).map some).take (nRows df) =
        (List.zipWith (· - ·) (emaList (2 / ((efs : ℚ) + 1)) df.dclose)
          (emaList (2 / ((ess : ℚ) + 1)) df.dclose)).map some
      rw [hmacd]
      exact take_map_some _ _ _ hnm
    · show ((emaList (2 / ((mss : ℚ) + 1))
          (List.zipWith (· - ·) (emaList (2 / ((efs : ℚ) + 1)) dfe.dclose)
            (emaList (2 / ((ess : ℚ) + 1)) dfe.dclose))).map some).take (nRows df) =
        (emaList (2 / ((mss : ℚ) + 1))
          (List.zipWith (· - ·) (emaList (2 / ((efs : ℚ) + 1)) df.dclose)
            (emaList (2 / ((ess : ℚ) + 1)) df.dclose))).map some
      rw [hmacd, he3]
      exact take_map_some _ _ _ hnsig
    · show ((List.zipWith (· - ·)
          (List.zipWith (· - ·) (emaList (2 / ((efs : ℚ) + 1)) dfe.dclose)
            (emaList (2 / ((ess : ℚ) + 1)) dfe.dclose))
          (emaList (2 / ((mss : ℚ) + 1))
            (List.zipWith (· - ·) (emaList (2 / ((efs : ℚ) + 1)) dfe.dclose)
              (emaList (2 / ((ess : ℚ) + 1)) dfe.dclose)))).map some).take (nRows df) =
        (List.zipWith (· - ·)
          (List.zipWith (· - ·) (emaList (2 / ((efs : ℚ) + 1)) df.dclose)
            (emaList (2 / ((ess : ℚ) + 1)) df.dclose))
          (emaList (2 / ((mss : ℚ) + 1))
            (List.zipWith (· - ·) (emaList (2 / ((efs : ℚ) + 1)) df.dclose)
              (emaList (2 / ((ess : ℚ) + 1)) df.dclose)))).map some
      rw [hhist]
      have : (List.zipWith (· - ·)
          (List.zipWith (· - ·) (emaList (2 / ((efs : ℚ) + 1)) df.dclose)
            (emaList (2 / ((ess : ℚ) + 1)) df.dclose))
          (emaList (2 / ((mss : ℚ) + 1))
            (List.zipWith (· - ·) (emaList (2 / ((efs : ℚ) + 1)) df.dclose)
              (emaList (2 / ((ess : ℚ) + 1)) df.dclose)))).length = nRows df := by
        rw [List.length_zipWith, hnm, hnsig]
        exact Nat.min_self _
      exact take_map_some _ _ _ this

/-- Witness for the amended C1: lengths at the concrete dfA, and
prefix-stability of calculate_ema_macd when dfA is extended to dfB. -/
theorem indicator_lengths_and_ema_macd_no_lookahead_witness :
    ((∃ l, (calculate_all_indicators 12 26 9 14 14 14 20 dfA).ema_fast =
        some l ∧ l.length = nRows dfA) ∧
     (∃ l, (calculate_all_indicators 12 26 9 14 14 14 20 dfA).ema_slow =
        some l ∧ l.length = nRows dfA) ∧
     (∃ l, (calculate_all_indicators 12 26 9 14 14 14 20 dfA).macd =
        some l ∧ l.length = nRows dfA) ∧
     (∃ l, (calculate_all_indicators 12 26 9 14 14 14 20 dfA).macd_sig =
        some l ∧ l.length = nRows dfA) ∧
     (∃ l, (calculate_all_indicators 12 26 9 14 14 14 20 dfA).macd_hist =
        some l ∧ l.length = nRows dfA) ∧
     (∃ l, (calculate_all_indicators 12 26 9 14 14 14 20 dfA).ema50 =
        some l ∧ l.length = nRows dfA) ∧
     (∃ l, (calculate_all_indicators 12 26 9 14 14 14 20 dfA).ema200 =
        some l ∧ l.length = nRows dfA) ∧
     (∃ l, (calculate_all_indicators 12 26 9 14 14 14 20 dfA).rsi =
        some l ∧ l.length = nRows dfA) ∧
     (∃ l, (calculate_all_indicators 12 26 9 14 14 14 20 dfA).atr =
        some l ∧ l.length = nRows dfA) ∧
     (∃ l, (calculate_all_indicators 12 26 9 14 14 14 20 dfA).adx =
        some l ∧ l.length = nRows dfA) ∧
     (∃ l, (calculate_all_indicators 12 26 9 14 14 14 20 dfA).vol_frac =
        some l ∧ l.length = nRows dfA)) ∧
    (((calculate_ema_macd 12 26 9 dfB).ema_fast.getD []).take (nRows dfA) =
      (calculate_ema_macd 12 26 9 dfA).ema_fast.getD [] ∧
     ((calculate_ema_macd 12 26 9 dfB).ema_slow.getD []).take (nRows dfA) =
      (calculate_ema_macd 12 26 9 dfA).ema_slow.getD [] ∧
     ((calculate_ema_macd 12 26 9 dfB).macd.getD []).take (nRows dfA) =
      (calculate_ema_macd 12 26 9 dfA).macd.getD [] ∧
     ((calculate_ema_macd 12 26 9 dfB).macd_sig.getD []).take (nRows dfA) =
      (calculate_ema_macd 12 26 9 dfA).macd_sig.getD [] ∧
     ((calculate_ema_macd 12 26 9 dfB).macd_hist.getD []).take (nRows dfA) =
      (calculate_ema_macd 12 26 9 dfA).macd_hist.getD []) :=
  ⟨indicator_lengths_and_ema_macd_no_lookahead.1 12 26 9 14 14 14 20 dfA rfl rfl rfl,
   indicator_lengths_and_ema_macd_no_lookahead.2 12 26 9 dfA dfB
     (List.replicate 12 1) (by decide)⟩

theorem zipWith_and_true : ∀ (as : List Bool) (bs : List Bool) (i : Nat),
    (List.zipWith and as bs)[i]? = some true →
    as[i]? = some true ∧ bs[i]? = some true := by
  intro as
  induction as with
  | nil => intro bs i h; rw [List.zipWith_nil_left] at h; simp at h
  | cons a ar ih =>
    intro bs i h
    cases bs with
    | nil => rw [List.zipWith_nil_right] at h; simp at h
    | cons b br =>
      cases i with
      | zero =>
        simp only [List.zipWith, List.getElem?_cons_zero, Option.some.injEq] at h ⊢
        exact ⟨(Bool.and_eq_true a b).mp h |>.1, (Bool.and_eq_true a b).mp h |>.2⟩
      | succ j =>
        simp only [List.zipWith, List.getElem?_cons_succ] at h ⊢
        exact ih br j h

theorem boolTo01_one (l : List Bool) (i : Nat) (h : (boolTo01 l)[i]? = some 1) :
    l[i]? = some true := by
  unfold boolTo01 at h
  rw [List.getElem?_map] at h
  cases hl : l[i]? with
  | none => rw [hl] at h; simp at h
  | some b =>
    rw [hl] at h
    cases b with
    | true => rfl
    | false => simp at h

/-- C5 counterexample: on the strictly rising 15-candle dataframe df15 the
strategy enters long at row 1 although atr/close there is 1 — far above
any configured upper volatility band (the repo's own IntradayScalp5m
default atr_max_pct is 0.012): NewsHeliusBitqueryML's volatility filter is
only the lower bound atr/close > 0.0015, so "too volatile" rows are NOT
excluded, refuting the [min, max]-band part of the claim. -/
theorem entry_volatility_band_counterexample :
    ((populate_entry_trend (populate_indicators df15)).enter_long.getD [])[1]? =
      some 1 ∧
    ((populate_entry_trend (populate_indicators df15)).atr.getD [])[1]? =
      some (some 2) ∧
    df15.dclose[1]? = some 2 ∧ ((2 : ℚ) / 2 > 12 / 1000) := by
  with_unfolding_all decide

/-- C5 (amended): Entry confluence — in NewsHeliusBitqueryML, enter_long is
1 at a row only if all of the following hold there: the trend filter
(ema50 above ema200), the volatility filter vol_ok (atr/close above the
lower bound 0.0015 — a lower bound only: rows that are too quiet are
excluded but too-volatile rows are not, see the counterexample; the
two-sided [min, max] atr_pct band exists only in IntradayScalp5m, whose
entry trigger is a Keltner-channel revert without the EMA-trend/MACD/RSI
conjuncts), and the momentum trigger (MACD crossing up over its signal
with RSI above 45); enter_short mirrors these conditions (ema50 below
ema200, MACD crossing down, RSI below 55). -/
theorem entry_confluence :
    (∀ (df : DF) (i : Nat),
      ((populate_entry_trend (populate_indicators df)).enter_long.getD [])[i]? =
        some 1 →
      (trendLongCol (populate_indicators df))[i]? = some true ∧
      ((populate_indicators df).vol_ok.getD [])[i]? = some true ∧
      (macdCrossUpCol (populate_indicators df))[i]? = some true ∧
      (rsiOkLongCol (populate_indicators df))[i]? = some true) ∧
    (∀ (df : DF) (i : Nat),
      ((populate_entry_trend (populate_indicators df)).enter_short.getD [])[i]? =
        some 1 →
      (trendShortCol (populate_indicators df))[i]? = some true ∧
      ((populate_indicators df).vol_ok.getD [])[i]? = some true ∧
      (macdCrossDownCol (populate_indicators df))[i]? = some true ∧
      (rsiOkShortCol (populate_indicators df))[i]? = some true) := by
  constructor
  · intro df i h
    have hcol : (populate_entry_trend (populate_indicators df)).enter_long.getD [] =
        boolTo01 (List.zipWith and
          (List.zipWith and
            (List.zipWith and (trendLongCol (populate_indicators df))
              ((populate_indicators df).vol_ok.getD []))
            (macdCrossUpCol (populate_indicators df)))
          (rsiOkLongCol (populate_indicators df))) := rfl
    rw [hcol] at h
    have h1 := boolTo01_one _ _ h
    obtain ⟨h2, hrsi⟩ := zipWith_and_true _ _ _ h1
    obtain ⟨h3, hcross⟩ := zipWith_and_true _ _ _ h2
    obtain ⟨htrend, hvol⟩ := zipWith_and_true _ _ _ h3
    exact ⟨htrend, hvol, hcross, hrsi⟩
  · intro df i h
    have hcol : (populate_entry_trend (populate_indicators df)).enter_short.getD [] =
        boolTo01 (List.zipWith and
          (List.zipWith and
            (List.zipWith and (trendShortCol (populate_indicators df))
              ((populate_indicators df).vol_ok.getD []))
            (macdCrossDownCol (populate_indicators df)))
          (rsiOkShortCol (populate_indicators df))) := rfl
    rw [hcol] at h
    have h1 := boolTo01_one _ _ h
    obtain ⟨h2, hrsi⟩ := zipWith_and_true _ _ _ h1
    obtain ⟨h3, hcross⟩ := zipWith_and_true _ _ _ h2
    obtain ⟨htrend, hvol⟩ := zipWith_and_true _ _ _ h3
    exact ⟨htrend, hvol, hcross, hrsi⟩

/-- Witness for the amended C5: at df15 row 1 the long entry fires, and the
theorem yields all four conjuncts. -/
theorem entry_confluence_witness :
    (trendLongCol (populate_indicators df15))[1]? = some true ∧
    ((populate_indicators df15).vol_ok.getD [])[1]? = some true ∧
    (macdCrossUpCol (populate_indicators df15))[1]? = some true ∧
    (rsiOkLongCol (populate_indicators df15))[1]? = some true :=
  entry_confluence.1 df15 1 (by with_unfolding_all decide)

theorem ewmGo_nonneg (a : ℚ) (minp : Nat) (ha0 : 0 ≤ a) (ha1 : a ≤ 1) :
    ∀ (xs : List Cell) (s : Option ℚ) (cnt : Nat),
    (∀ c ∈ xs, ∀ x, c = some x → 0 ≤ x) → (∀ y, s = some y → 0 ≤ y) →
    ∀ c ∈ ewmGo a minp s cnt xs, ∀ x, c = some x → 0 ≤ x := by
  intro xs
  induction xs with
  | nil => intro s cnt _ _ c hc; cases s <;> simp [ewmGo] at hc
  | cons d r ih =>
    intro s cnt hxs hs c hc
    have hd : ∀ x, d = some x → 0 ≤ x := hxs d (List.mem_cons_self d r)
    have hr : ∀ c ∈ r, ∀ x, c = some x → 0 ≤ x :=
      fun c hc => hxs c (List.mem_cons_of_mem d hc)
    cases s with
    | none =>
      cases d with
      | none =>
        simp only [ewmGo, List.mem_cons] at hc
        rcases hc with hc | hc
        · intro x hx; rw [hc] at hx; cases hx
        · exact ih none cnt hr hs c hc
      | some v =>
        have hv : 0 ≤ v := hd v rfl
        simp only [ewmGo, List.mem_cons] at hc
        rcases hc with hc | hc
        · intro x hx
          rw [hc] at hx
          split at hx
          · cases hx; exact hv
          · cases hx
        · exact ih (some v) (cnt + 1) hr (fun y hy => by cases hy; exact hv) c hc
    | some s0 =>
      have hs0 : 0 ≤ s0 := hs s0 rfl
      cases d with
      | none =>
        simp only [ewmGo, List.mem_cons] at hc
        rcases hc with hc | hc
        · intro x hx
          rw [hc] at hx
          split at hx
          · cases hx; exact hs0
          · cases hx
        · exact ih (some s0) cnt hr hs c hc
      | some v =>
        have hv : 0 ≤ v := hd v rfl
        have ht : 0 ≤ a * v + (1 - a) * s0 := by nlinarith
        simp only [ewmGo, List.mem_cons] at hc
        rcases hc with hc | hc
        · intro x hx
          rw [hc] at hx
          split at hx
          · cases hx; exact ht
          · cases hx
        · exact ih (some (a * v + (1 - a) * s0)) (cnt + 1) hr
            (fun y hy => by cases hy; exact ht) c hc

theorem gain_cells_nonneg (closes : List ℚ) :
    ∀ c ∈ (diffList closes).map cGain, ∀ x, c = some x → 0 ≤ x := by
  intro c hc x hx
  obtain ⟨d, _, rfl⟩ := List.mem_map.mp hc
  cases d with
  | none => cases hx
  | some v =>
    have hx2 : some (max v 0) = some x := hx
    injection hx2 with hx3
    rw [← hx3]
    exact le_max_right v 0

theorem loss_cells_nonneg (closes : List ℚ) :
    ∀ c ∈ (diffList closes).map cLoss, ∀ x, c = some x → 0 ≤ x := by
  intro c hc x hx
  obtain ⟨d, _, rfl⟩ := List.mem_map.mp hc
  cases d with
  | none => cases hx
  | some v =>
    have hx2 : some (max (-v) 0) = some x := hx
    injection hx2 with hx3
    rw [← hx3]
    exact le_max_right (-v) 0

theorem getElem?_zipWith_some {α β γ : Type} (f : α → β → γ) :
    ∀ (as : List α) (bs : List β) (i : Nat) (a : α) (b : β),
    as[i]? = some a → bs[i]? = some b →
    (List.zipWith f as bs)[i]? = some (f a b) := by
  intro as
  induction as with
  | nil => intro bs i a b ha _; simp at ha
  | cons x xr ih =>
    intro bs i a b ha hb
    cases bs with
    | nil => simp at hb
    | cons y yr =>
      cases i with
      | zero =>
        simp only [List.getElem?_cons_zero, Option.some.injEq] at ha hb
        rw [← ha, ← hb, List.zipWith_cons_cons]
        exact List.getElem?_cons_zero
      | succ j =>
        simp only [List.getElem?_cons_succ] at ha hb
        rw [List.zipWith_cons_cons]
        simp only [List.getElem?_cons_succ]
        exact ih yr j a b ha hb

/-- C6 counterexample: on fifteen strictly rising closes the Wilder-smoothed
average loss at row 14 is exactly 0, yet the rsi value there is
10^12/(10^10 + 1) ≈ 99.99999999 — not 50: calculate_rsi guards the
division by adding 1e-10 to avg_loss instead of defaulting RSI to 50. -/
theorem rsi_degenerate_counterexample :
    (avgLossCol 14 rising15)[14]? = some (some 0) ∧
    (rsiCol 14 rising15)[14]? ≠ some (some 50) := by
  with_unfolding_all decide

/-- C6 (amended): RSI bounds and degenerate case — at every row where the
smoothed averages are defined (non-warm-up), the rsi value of calculate_rsi
equals 100 - 100/(1 + avg_gain/(avg_loss + 1e-10)) and lies in [0, 100)
(hence within [0, 100]); it equals exactly 50 precisely when
avg_gain = avg_loss + 1e-10, not when avg_loss = 0; when avg_loss is 0 the
value is 100·avg_gain/(avg_gain + 1e-10) (0 for a flat window, ≈ 100 — not
50 — whenever avg_gain is positive). -/
theorem rsi_range_and_degenerate (period : Nat) (closes : List ℚ) (i : Nat)
    (g l : ℚ) (hper : 1 ≤ period)
    (hg : (avgGainCol period closes)[i]? = some (some g))
    (hl : (avgLossCol period closes)[i]? = some (some l)) :
    (rsiCol period closes)[i]? =
      some (some (100 - 100 / (1 + g / (l + rsiEps)))) ∧
    0 ≤ 100 - 100 / (1 + g / (l + rsiEps)) ∧
    100 - 100 / (1 + g / (l + rsiEps)) < 100 ∧
    (100 - 100 / (1 + g / (l + rsiEps)) = 50 ↔ g = l + rsiEps) ∧
    (l = 0 → 100 - 100 / (1 + g / (l + rsiEps)) = 100 * g / (g + rsiEps)) := by
  have ha0 : (0 : ℚ) ≤ 1 / (period : ℚ) := by positivity
  have ha1 : 1 / (period : ℚ) ≤ 1 := by
    rw [div_le_one (by exact_mod_cast Nat.lt_of_lt_of_le Nat.zero_lt_one hper)]
    exact_mod_cast hper
  have hg0 : 0 ≤ g := by
    have hmem := List.getElem?_mem hg
    exact ewmGo_nonneg (1 / (period : ℚ)) period ha0 ha1
      ((diffList closes).map cGain) none 0 (gain_cells_nonneg closes)
      (fun y hy => by cases hy) (some g) hmem g rfl
  have hl0 : 0 ≤ l := by
    have hmem := List.getElem?_mem hl
    exact ewmGo_nonneg (1 / (period : ℚ)) period ha0 ha1
      ((diffList closes).map cLoss) none 0 (loss_cells_nonneg closes)
      (fun y hy => by cases hy) (some l) hmem l rfl
  have heps : (0 : ℚ) < rsiEps := by norm_num [rsiEps]
  have hlp : 0 < l + rsiEps := by linarith
  have hrs0 : 0 ≤ g / (l + rsiEps) := div_nonneg hg0 (le_of_lt hlp)
  have h1rs : (0 : ℚ) < 1 + g / (l + rsiEps) := by linarith
  have hd0 : 0 < 100 / (1 + g / (l + rsiEps)) := by positivity
  have hd100 : 100 / (1 + g / (l + rsiEps)) ≤ 100 := by
    rw [div_le_iff₀ h1rs]
    nlinarith
  refine ⟨?_, by linarith, by linarith, ?_, ?_⟩
  · have := getElem?_zipWith_some
      (cmap2 (fun g l => 100 - 100 / (1 + g / (l + rsiEps))))
      (avgGainCol period closes) (avgLossCol period closes) i (some g) (some l)
      hg hl
    exact this
  · constructor
    · intro h
      have h2 : 100 / (1 + g / (l + rsiEps)) = 50 := by linarith
      field_simp at h2
      linarith
    · intro h
      rw [h, div_self (ne_of_gt hlp)]
      norm_num
  · intro h
    rw [h, zero_add]
    have hge : 0 < g + rsiEps := by linarith
    have hepsne : rsiEps ≠ 0 := ne_of_gt heps
    field_simp
    ring

/-- Witness for the amended C6 at row 14 of the rising series: avg_gain 1,
avg_loss 0. -/
theorem rsi_range_and_degenerate_witness :
    (rsiCol 14 rising15)[14]? =
      some (some (100 - 100 / (1 + 1 / ((0 : ℚ) + rsiEps)))) ∧
    0 ≤ 100 - 100 / (1 + 1 / ((0 : ℚ) + rsiEps)) ∧
    100 - 100 / (1 + 1 / ((0 : ℚ) + rsiEps)) < 100 ∧
    (100 - 100 / (1 + 1 / ((0 : ℚ) + rsiEps)) = 50 ↔ (1 : ℚ) = 0 + rsiEps) ∧
    ((0 : ℚ) = 0 → 100 - 100 / (1 + 1 / ((0 : ℚ) + rsiEps)) =
      100 * 1 / ((1 : ℚ) + rsiEps)) :=
  rsi_range_and_degenerate 14 rising15 14 1 0 (by decide)
    (by with_unfolding_all decide) (by with_unfolding_all decide)

theorem hCalc_frame (body : DF → DF) : FrameOK (hCalc body) body := by
  intro σ r hr
  refine ⟨le_refl _, Nat.lt_succ_self _, Nat.le_succ _, ?_, ?_⟩
  · intro j hj
    show Function.update (Function.update σ.mem σ.next (σ.mem r)) σ.next
      (body (Function.update σ.mem σ.next (σ.mem r) σ.next)) j = σ.mem j
    rw [Function.update_noteq (Nat.ne_of_lt hj),
      Function.update_noteq (Nat.ne_of_lt hj)]
  · show Function.update (Function.update σ.mem σ.next (σ.mem r)) σ.next
      (body (Function.update σ.mem σ.next (σ.mem r) σ.next)) σ.next =
      body (σ.mem r)
    rw [Function.update_same, Function.update_same]

theorem FrameOK_comp {f f2 : Store → Nat → Nat × Store} {g g2 : DF → DF}
    (h1 : FrameOK f g) (h2 : FrameOK f2 g2) :
    FrameOK (fun σ r => f2 (f σ r).2 (f σ r).1) (fun d => g2 (g d)) := by
  intro σ r hr
  obtain ⟨ha1, ha2, ha3, ha4, ha5⟩ := h1 σ r hr
  obtain ⟨hb1, hb2, hb3, hb4, hb5⟩ := h2 (f σ r).2 (f σ r).1 ha2
  refine ⟨ha3.trans hb1, hb2, ha3.trans hb3, ?_, ?_⟩
  · intro j hj
    rw [hb4 j (Nat.lt_of_lt_of_le hj ha3)]
    exact ha4 j hj
  · rw [hb5, ha5]

theorem FrameOK_post {f : Store → Nat → Nat × Store} {g : DF → DF}
    (h : FrameOK f g) (p : DF → DF) :
    FrameOK (fun σ r => ((f σ r).1, writeRef (f σ r).2 (f σ r).1 p))
      (fun d => p (g d)) := by
  intro σ r hr
  obtain ⟨h1, h2, h3, h4, h5⟩ := h σ r hr
  refine ⟨h1, h2, h3, ?_, ?_⟩
  · intro j hj
    show Function.update (f σ r).2.mem (f σ r).1 (p ((f σ r).2.mem (f σ r).1)) j =
      σ.mem j
    rw [Function.update_noteq (by omega : j ≠ (f σ r).1)]
    exact h4 j hj
  · show Function.update (f σ r).2.mem (f σ r).1 (p ((f σ r).2.mem (f σ r).1))
      (f σ r).1 = p (g (σ.mem r))
    rw [Function.update_same, h5]

theorem frame_all_indicators (efs ess mss rp atp adxp w : Nat) :
    FrameOK (calculate_all_indicators_H efs ess mss rp atp adxp w)
      (calculate_all_indicators efs ess mss rp atp adxp w) :=
  FrameOK_post
    (FrameOK_comp
      (FrameOK_comp
        (FrameOK_comp
          (FrameOK_comp
            (FrameOK_comp
              (FrameOK_comp (hCalc_frame id)
                (hCalc_frame (calculate_ema_macd efs ess mss)))
              (hCalc_frame calculate_trend_emas))
            (hCalc_frame (calculate_rsi rp)))
          (hCalc_frame (calculate_atr atp)))
        (hCalc_frame (calculate_adx adxp)))
      (hCalc_frame (calculate_volume_fraction w)))
    (fun d => dfBFill (dfFFill d))

theorem FrameOK_no_mutation {f : Store → Nat → Nat × Store} {g : DF → DF}
    (h : FrameOK f g) (σ : Store) (r : Nat) (hr : r < σ.next) :
    (f σ r).2.mem r = σ.mem r ∧ (f σ r).1 ≠ r ∧
    (f σ r).2.mem (f σ r).1 = g (σ.mem r) := by
  obtain ⟨h1, h2, h3, h4, h5⟩ := h σ r hr
  refine ⟨h4 r hr, ?_, h5⟩
  intro he
  rw [he] at h1
  omega

/-- C10: Input non-mutation — in the heap model of Python object identity,
calculate_all_indicators and each calculate_* helper allocate a fresh
dataframe object (df = df.copy()), perform all column writes and in-place
fills on that fresh object, and return it: for any valid caller reference
the caller's dataframe object is left completely unchanged (no column
added, removed, or modified), the returned reference is a different
object, and its value is the pure column computation of the argument. -/
theorem calculate_no_input_mutation (σ : Store) (r : Nat) (hr : r < σ.next) :
    ((calculate_ema_macd_H 12 26 9 σ r).2.mem r = σ.mem r ∧
     (calculate_ema_macd_H 12 26 9 σ r).1 ≠ r ∧
     (calculate_ema_macd_H 12 26 9 σ r).2.mem (calculate_ema_macd_H 12 26 9 σ r).1 =
       calculate_ema_macd 12 26 9 (σ.mem r)) ∧
    ((calculate_trend_emas_H σ r).2.mem r = σ.mem r ∧
     (calculate_trend_emas_H σ r).1 ≠ r ∧
     (calculate_trend_emas_H σ r).2.mem (calculate_trend_emas_H σ r).1 =
       calculate_trend_emas (σ.mem r)) ∧
    ((calculate_rsi_H 14 σ r).2.mem r = σ.mem r ∧
     (calculate_rsi_H 14 σ r).1 ≠ r ∧
     (calculate_rsi_H 14 σ r).2.mem (calculate_rsi_H 14 σ r).1 =
       calculate_rsi 14 (σ.mem r)) ∧
    ((calculate_atr_H 14 σ r).2.mem r = σ.mem r ∧
     (calculate_atr_H 14 σ r).1 ≠ r ∧
     (calculate_atr_H 14 σ r).2.mem (calculate_atr_H 14 σ r).1 =
       calculate_atr 14 (σ.mem r)) ∧
    ((calculate_adx_H 14 σ r).2.mem r = σ.mem r ∧
     (calculate_adx_H 14 σ r).1 ≠ r ∧
     (calculate_adx_H 14 σ r).2.mem (calculate_adx_H 14 σ r).1 =
       calculate_adx 14 (σ.mem r)) ∧
    ((calculate_volume_fraction_H 20 σ r).2.mem r = σ.mem r ∧
     (calculate_volume_fraction_H 20 σ r).1 ≠ r ∧
     (calculate_volume_fraction_H 20 σ r).2.mem
       (calculate_volume_fraction_H 20 σ r).1 =
       calculate_volume_fraction 20 (σ.mem r)) ∧
    ((calculate_all_indicators_H 12 26 9 14 14 14 20 σ r).2.mem r = σ.mem r ∧
     (calculate_all_indicators_H 12 26 9 14 14 14 20 σ r).1 ≠ r ∧
     (calculate_all_indicators_H 12 26 9 14 14 14 20 σ r).2.mem
       (calculate_all_indicators_H 12 26 9 14 14 14 20 σ r).1 =
       calculate_all_indicators 12 26 9 14 14 14 20 (σ.mem r)) :=
  ⟨FrameOK_no_mutation (hCalc_frame (calculate_ema_macd 12 26 9)) σ r hr,
   FrameOK_no_mutation (hCalc_frame calculate_trend_emas) σ r hr,
   FrameOK_no_mutation (hCalc_frame (calculate_rsi 14)) σ r hr,
   FrameOK_no_mutation (hCalc_frame (calculate_atr 14)) σ r hr,
   FrameOK_no_mutation (hCalc_frame (calculate_adx 14)) σ r hr,
   FrameOK_no_mutation (hCalc_frame (calculate_volume_fraction 20)) σ r hr,
   FrameOK_no_mutation (frame_all_indicators 12 26 9 14 14 14 20) σ r hr⟩


/-- Witness for C10 on the concrete one-object heap. -/
theorem calculate_no_input_mutation_witness :
    ((calculate_ema_macd_H 12 26 9 storeZero 0).2.mem 0 = storeZero.mem 0 ∧
     (calculate_ema_macd_H 12 26 9 storeZero 0).1 ≠ 0 ∧
     (calculate_ema_macd_H 12 26 9 storeZero 0).2.mem
       (calculate_ema_macd_H 12 26 9 storeZero 0).1 =
       calculate_ema_macd 12 26 9 (storeZero.mem 0)) ∧
    ((calculate_trend_emas_H storeZero 0).2.mem 0 = storeZero.mem 0 ∧
     (calculate_trend_emas_H storeZero 0).1 ≠ 0 ∧
     (calculate_trend_emas_H storeZero 0).2.mem
       (calculate_trend_emas_H storeZero 0).1 =
       calculate_trend_emas (storeZero.mem 0)) ∧
    ((calculate_rsi_H 14 storeZero 0).2.mem 0 = storeZero.mem 0 ∧
     (calculate_rsi_H 14 storeZero 0).1 ≠ 0 ∧
     (calculate_rsi_H 14 storeZero 0).2.mem (calculate_rsi_H 14 storeZero 0).1 =
       calculate_rsi 14 (storeZero.mem 0)) ∧
    ((calculate_atr_H 14 storeZero 0).2.mem 0 = storeZero.mem 0 ∧
     (calculate_atr_H 14 storeZero 0).1 ≠ 0 ∧
     (calculate_atr_H 14 storeZero 0).2.mem (calculate_atr_H 14 storeZero 0).1 =
       calculate_atr 14 (storeZero.mem 0)) ∧
    ((calculate_adx_H 14 storeZero 0).2.mem 0 = storeZero.mem 0 ∧
     (calculate_adx_H 14 storeZero 0).1 ≠ 0 ∧
     (calculate_adx_H 14 storeZero 0).2.mem (calculate_adx_H 14 storeZero 0).1 =
       calculate_adx 14 (storeZero.mem 0)) ∧
    ((calculate_volume_fraction_H 20 storeZero 0).2.mem 0 = storeZero.mem 0 ∧
     (calculate_volume_fraction_H 20 storeZero 0).1 ≠ 0 ∧
     (calculate_volume_fraction_H 20 storeZero 0).2.mem
       (calculate_volume_fraction_H 20 storeZero 0).1 =
       calculate_volume_fraction 20 (storeZero.mem 0)) ∧
    ((calculate_all_indicators_H 12 26 9 14 14 14 20 storeZero 0).2.mem 0 =
       storeZero.mem 0 ∧
     (calculate_all_indicators_H 12 26 9 14 14 14 20 storeZero 0).1 ≠ 0 ∧
     (calculate_all_indicators_H 12 26 9 14 14 14 20 storeZero 0).2.mem
       (calculate_all_indicators_H 12 26 9 14 14 14 20 storeZero 0).1 =
       calculate_all_indicators 12 26 9 14 14 14 20 (storeZero.mem 0)) :=
  calculate_no_input_mutation storeZero 0 (by decide)
